import Mathlib

/-!
# A verification model of the REINA agent-based epidemic engine

This file gives a shallow embedding, in Lean 4, of the core simulation engine
found in `calc/simulation.py` of the reina-model repository, together with
theorems settling a list of claims about that engine.

Embedding conventions:

* Python floats become `ℚ`.  All probability parameters and random draws are
  rationals; `int(x)` (truncation toward zero) becomes `py_int`.
* The global numpy random stream (seeded by `np.random.seed(1234)` in
  `RandomPool.__init__`) is abstracted as two value streams `uniform` and
  `lognormal` indexed by a running position counter.  Each call of
  `np.random.random()` or `np.random.lognormal(..)` reads the stream at the
  current position and advances it.  Two runs with the same seed correspond to
  two runs with the same streams.
* Mutable objects become explicit state passing: the whole interpreter state
  is a `Context` value and each Python method is a function `Context → ...`.
  The population vector is a total function `Nat → Person` together with the
  population size `n_people` (the Python list is allocated once and never
  grows, and every index stored in `infectees` / `infector` / the testing
  queue is a valid position by construction).
* `raise Exception()` (and numba `assert`) becomes an `Option` result:
  `none` models an exception propagating out of the simulation.
* Array indexing with an index computed from a random draw
  (`int(random.get() * len(people))`) keeps an explicit range guard, failing
  (`none`) outside `[0, n_people)`; for draws in `[0, 1)` the guard always
  passes.
-/

/-- Mirrors `SymptomSeverity` from `calc/simulation.py`. -/
inductive SymptomSeverity where
  | ASYMPTOMATIC
  | MILD
  | SEVERE
  | CRITICAL
deriving DecidableEq, Repr

/-- Mirrors `PersonState` from `calc/simulation.py`. -/
inductive PersonState where
  | SUSCEPTIBLE
  | INCUBATION
  | ILLNESS
  | HOSPITALIZED
  | IN_ICU
  | RECOVERED
  | DEAD
deriving DecidableEq, Repr

/-- Mirrors `TestingMode` from `calc/simulation.py`. -/
inductive TestingMode where
  | NO_TESTING
  | ALL_WITH_SYMPTOMS_CT
  | ALL_WITH_SYMPTOMS
  | ONLY_SEVERE_SYMPTOMS
deriving DecidableEq, Repr

/-- Mirrors the `Person` jitclass fields.  `infector` keeps the source's
`-1` sentinel convention (`nb.int32`), `infectees` is the growable list of
indices of people this person infected. -/
structure Person where
  idx : Nat
  age : Nat
  has_immunity : Bool
  is_infected : Bool
  was_detected : Bool
  queued_for_testing : Bool
  other_people_infected : Nat
  other_people_exposed_today : Int
  symptom_severity : SymptomSeverity
  days_left : Int
  day_of_illness : Int
  state : PersonState
  infectees : List Nat
  infector : Int
deriving Repr

/-- Mirrors `Person.__init__`. -/
def Person.init (idx age : Nat) : Person where
  idx := idx
  age := age
  has_immunity := false
  is_infected := false
  was_detected := false
  queued_for_testing := false
  other_people_infected := 0
  other_people_exposed_today := 0
  symptom_severity := SymptomSeverity.ASYMPTOMATIC
  days_left := 0
  day_of_illness := 0
  state := PersonState.SUSCEPTIBLE
  infectees := []
  infector := -1

/-- Mirrors the `HealthcareSystem` jitclass fields. -/
structure HealthcareSystem where
  beds : Int
  icu_units : Int
  available_beds : Int
  available_icu_units : Int
  testing_mode : TestingMode
  tests_run_per_day : Nat
  testing_queue : List Nat
deriving Repr

/-- Mirrors `HealthcareSystem.__init__`. -/
def HealthcareSystem.init (beds icu_units : Int) : HealthcareSystem where
  beds := beds
  icu_units := icu_units
  available_beds := beds
  available_icu_units := icu_units
  testing_mode := TestingMode.NO_TESTING
  tests_run_per_day := 0
  testing_queue := []

/-- Mirrors `HealthcareSystem.hospitalize`: take one ward bed if available. -/
def HealthcareSystem.hospitalize (h : HealthcareSystem) : Bool × HealthcareSystem :=
  if h.available_beds = 0 then (false, h)
  else (true, { h with available_beds := h.available_beds - 1 })

/-- Mirrors `HealthcareSystem.to_icu`: take one ICU unit if available. -/
def HealthcareSystem.to_icu (h : HealthcareSystem) : Bool × HealthcareSystem :=
  if h.available_icu_units = 0 then (false, h)
  else (true, { h with available_icu_units := h.available_icu_units - 1 })

/-- Mirrors `HealthcareSystem.release`; the `assert` becomes a `none` result. -/
def HealthcareSystem.release (h : HealthcareSystem) : Option HealthcareSystem :=
  let h2 : HealthcareSystem := { h with available_beds := h.available_beds + 1 }
  if h2.available_beds ≤ h2.beds then some h2 else none

/-- Mirrors `HealthcareSystem.release_from_icu`; the `assert` becomes `none`. -/
def HealthcareSystem.release_from_icu (h : HealthcareSystem) : Option HealthcareSystem :=
  let h2 : HealthcareSystem := { h with available_icu_units := h.available_icu_units + 1 }
  if h2.available_icu_units ≤ h2.icu_units then some h2 else none

/-- Mirrors `HealthcareSystem.set_testing_mode`. -/
def HealthcareSystem.set_testing_mode (h : HealthcareSystem) (mode : TestingMode) :
    HealthcareSystem :=
  { h with testing_mode := mode }

/-- Mirrors the `Disease` jitclass parameter fields; `p_severe` is the list of
`(age, severe_chance)` rows of the `p_severe` array. -/
structure Disease where
  p_infection : ℚ
  p_asymptomatic : ℚ
  p_critical : ℚ
  p_hospital_death : ℚ
  p_icu_death : ℚ
  p_hospital_death_no_beds : ℚ
  p_icu_death_no_beds : ℚ
  p_severe : List (ℚ × ℚ)
deriving Repr

/-- The `INFECTIOUSNESS_OVER_TIME` table from `calc/simulation.py`
(day offset relative to symptom onset, chance). -/
def INFECTIOUSNESS_OVER_TIME : List (Int × ℚ) :=
  [(-2, 12/100), (-1, 29/100), (0, 27/100), (1, 7/100), (2, 5/100),
   (3, 4/100), (4, 3/100), (5, 2/100), (6, 2/100), (7, 1/100),
   (8, 1/100), (9, 1/100), (10, 1/100)]

/-- The scan of `INFECTIOUSNESS_OVER_TIME` done by
`Disease.get_source_infectiousness`: walking the table in order, return `0`
once `day < illness_day`, return the table chance at `day == illness_day`,
and `0` when the table is exhausted. -/
def infectiousness_scan : List (Int × ℚ) → Int → ℚ
  | [], _ => 0
  | (d, c) :: rest, day =>
    if day < d then 0
    else if day = d then c
    else infectiousness_scan rest day

/-- Mirrors `Disease.get_source_infectiousness`.  For states other than
`INCUBATION` / `ILLNESS` the Python code raises, so the result is `none`. -/
def Disease.get_source_infectiousness (dis : Disease) (p : Person) : Option ℚ :=
  if p.state = PersonState.INCUBATION then
    some (dis.p_infection * infectiousness_scan INFECTIOUSNESS_OVER_TIME (-p.days_left))
  else if p.state = PersonState.ILLNESS then
    some (dis.p_infection * infectiousness_scan INFECTIOUSNESS_OVER_TIME p.day_of_illness)
  else none

/-- Mirrors `Disease.get_illness_days` (constant 7). -/
def Disease.get_illness_days : Int := 7

/-- Mirrors `Disease.get_hospitalisation_days` (constant 14). -/
def Disease.get_hospitalisation_days : Int := 14

/-- Mirrors `Disease.get_icu_days` (constant 21). -/
def Disease.get_icu_days : Int := 21

/-- The loop of `Disease.get_symptom_severity` over the `p_severe` rows:
starting from `severe_chance = 0`, keep the last row whose age bound is not
above the person's age. -/
def severe_chance_scan : List (ℚ × ℚ) → ℚ → Nat → ℚ
  | [], acc, _ => acc
  | (age, sc) :: rest, acc, a =>
    if age > (a : ℚ) then acc else severe_chance_scan rest sc a

/-- Python `int(x)` on a float: truncation toward zero, on `ℚ`. -/
def py_int (x : ℚ) : Int :=
  if 0 ≤ x then Int.floor x else Int.ceil x

/-- Mirrors the `Population` jitclass fields.  The per-age `int32` numpy
arrays are total functions `Nat → Int`. -/
structure Population where
  susceptible : Nat → Int
  infected : Nat → Int
  detected : Nat → Int
  all_detected : Nat → Int
  recovered : Nat → Int
  hospitalized : Nat → Int
  dead : Nat → Int
  avg_contacts_per_day : Nat → ℚ
  limit_mass_gatherings : Int
  population_mobility_factor : ℚ

/-- Pointwise array update `f[a] += k`. -/
def bump (f : Nat → Int) (a : Nat) (k : Int) : Nat → Int :=
  fun x => if x = a then f x + k else f x

/-- Mirrors `Population.__init__` given the age histogram. -/
def Population.init (age_counts : List Nat) (avg_contacts : Nat → ℚ) : Population where
  susceptible := fun a => (age_counts.getD a 0 : Int)
  infected := fun _ => 0
  detected := fun _ => 0
  all_detected := fun _ => 0
  recovered := fun _ => 0
  hospitalized := fun _ => 0
  dead := fun _ => 0
  avg_contacts_per_day := avg_contacts
  limit_mass_gatherings := 0
  population_mobility_factor := 1

/-- Mirrors `Population.infect`. -/
def Population.infect (p : Population) (age : Nat) : Population :=
  { p with susceptible := bump p.susceptible age (-1),
           infected := bump p.infected age 1 }

/-- Mirrors `Population.recover`. -/
def Population.recover (p : Population) (age : Nat) (was_detected : Bool) : Population :=
  { p with infected := bump p.infected age (-1),
           recovered := bump p.recovered age 1,
           detected := if was_detected then bump p.detected age (-1) else p.detected }

/-- Mirrors `Population.detect`. -/
def Population.detect (p : Population) (age : Nat) : Population :=
  { p with detected := bump p.detected age 1,
           all_detected := bump p.all_detected age 1 }

/-- Mirrors `Population.hospitalize`. -/
def Population.hospitalize (p : Population) (age : Nat) : Population :=
  { p with hospitalized := bump p.hospitalized age 1 }

/-- Mirrors `Population.release_from_hospital`. -/
def Population.release_from_hospital (p : Population) (age : Nat) : Population :=
  { p with hospitalized := bump p.hospitalized age (-1) }

/-- Mirrors `Population.die`. -/
def Population.die (p : Population) (age : Nat) (was_detected : Bool) : Population :=
  { p with infected := bump p.infected age (-1),
           dead := bump p.dead age 1,
           detected := if was_detected then bump p.detected age (-1) else p.detected }

/-- The seeded global numpy random stream used by `RandomPool` and by the
direct `np.random.lognormal` calls: an abstract stream of uniform values and
a stream of lognormal values, with a shared running position.  The seed
(`np.random.seed(1234)`) determines the streams. -/
structure RandomPool where
  uniform : Nat → ℚ
  lognormal : Nat → ℚ
  pos : Nat

/-- Mirrors `RandomPool.get` (`np.random.random()`): one uniform draw. -/
def RandomPool.get (r : RandomPool) : ℚ × RandomPool :=
  (r.uniform r.pos, { r with pos := r.pos + 1 })

/-- One `np.random.lognormal(..)` draw from the shared stream. -/
def RandomPool.draw_lognormal (r : RandomPool) : ℚ × RandomPool :=
  (r.lognormal r.pos, { r with pos := r.pos + 1 })

/-- Mirrors `RandomPool.chance`: `p == 1` and `p == 0` short-circuit without
consuming a draw, otherwise draw and compare. -/
def RandomPool.chance (r : RandomPool) (p : ℚ) : Bool × RandomPool :=
  if p = 1 then (true, r)
  else if p = 0 then (false, r)
  else
    let vr := r.get
    (decide (vr.1 < p), vr.2)

/-- Mirrors the `Intervention` jitclass: a day offset from the simulation
start, a type name, and an integer value. -/
structure Intervention where
  day : Int
  name : String
  value : Int
deriving Repr, DecidableEq

/-- Mirrors `make_iv`: dates are modelled as absolute day numbers, so the
`date.fromisoformat` subtraction becomes an integer subtraction.  No
validation of the intervention name happens here, exactly as in the source.
`value or 0` maps `None` (and `0`) to `0`. -/
def make_iv (start_day : Int) (name : String) (date_day : Option Int)
    (value : Option Int) : Intervention :=
  { day := match date_day with
      | some d => d - start_day
      | none => 0,
    name := name,
    value := value.getD 0 }

/-- Mirrors the `Context` jitclass fields. -/
structure Context where
  pop : Population
  hc : HealthcareSystem
  disease : Disease
  random : RandomPool
  day : Int
  people : Nat → Person
  n_people : Nat
  interventions : List Intervention
  total_infections : Nat
  total_infectors : Nat
  exposed_per_day : Int

/-- Point update of one person in the population vector. -/
def upd_person (c : Context) (i : Nat) (f : Person → Person) : Context :=
  { c with people := fun j => if j = i then f (c.people i) else c.people j }

/-- The record produced by `Context.generate_state` (`ModelState`). -/
structure ModelState where
  susceptible : Nat → Int
  infected : Nat → Int
  detected : Nat → Int
  all_detected : Nat → Int
  hospitalized : Nat → Int
  dead : Nat → Int
  recovered : Nat → Int
  available_hospital_beds : Int
  available_icu_units : Int
  r : ℚ
  exposed_per_day : Int
  tests_run_per_day : Nat

/-- Mirrors `Context.generate_state`. -/
def Context.generate_state (c : Context) : ModelState where
  susceptible := c.pop.susceptible
  infected := c.pop.infected
  detected := c.pop.detected
  all_detected := c.pop.all_detected
  hospitalized := c.pop.hospitalized
  dead := c.pop.dead
  recovered := c.pop.recovered
  available_hospital_beds := c.hc.available_beds
  available_icu_units := c.hc.available_icu_units
  r := if c.total_infectors = 0 then 0
       else (c.total_infections : ℚ) / (c.total_infectors : ℚ)
  exposed_per_day := c.exposed_per_day
  tests_run_per_day := c.hc.tests_run_per_day

/-- Mirrors `Disease.get_incubation_days`: `1 + int(np.random.lognormal(1.0, 0.5) * 4)`
clamped from above to 14. -/
def Disease.get_incubation_days (c : Context) : Int × Context :=
  let xr := c.random.draw_lognormal
  let days := 1 + py_int (xr.1 * 4)
  ((if days > 14 then 14 else days), { c with random := xr.2 })

/-- Mirrors `Disease.get_symptom_severity`: one uniform draw compared against
the cumulative severity thresholds for this person's age. -/
def Disease.get_symptom_severity (c : Context) (i : Nat) : SymptomSeverity × Context :=
  let vr := c.random.get
  let c1 := { c with random := vr.2 }
  let sc := severe_chance_scan c1.disease.p_severe 0 (c1.people i).age
  ((if vr.1 < sc * c1.disease.p_critical then SymptomSeverity.CRITICAL
    else if vr.1 < sc then SymptomSeverity.SEVERE
    else if vr.1 < 1 - c1.disease.p_asymptomatic then SymptomSeverity.MILD
    else SymptomSeverity.ASYMPTOMATIC), c1)

/-- Mirrors `Disease.dies_in_hospital`: pick the probability from the
(in_icu, care_available) table and draw. -/
def Disease.dies_in_hospital (c : Context) (in_icu care_available : Bool) : Bool × Context :=
  let p :=
    if in_icu then
      (if care_available then c.disease.p_icu_death else c.disease.p_icu_death_no_beds)
    else
      (if care_available then c.disease.p_hospital_death else c.disease.p_hospital_death_no_beds)
  let br := c.random.chance p
  (br.1, { c with random := br.2 })

/-- Mirrors `Person.infect` for the person at index `i` with optional source
index.  Sets the incubation state, records the infector/infectee edge, and
updates the per-age counters via `Population.infect`. -/
def Person.infect (c : Context) (i : Nat) (source : Option Nat) : Context :=
  let dc := Disease.get_incubation_days c
  let c1 := dc.2
  let c2 := upd_person c1 i (fun p =>
    { p with state := PersonState.INCUBATION, days_left := dc.1, is_infected := true })
  let c3 := match source with
    | none => c2
    | some s =>
      let c2a := upd_person c2 i (fun p => { p with infector := ((c2.people s).idx : Int) })
      upd_person c2a s (fun p => { p with infectees := p.infectees ++ [(c2a.people i).idx] })
  { c3 with pop := c3.pop.infect (c3.people i).age }

/-- Mirrors `Person.detect`. -/
def Person.detect (c : Context) (i : Nat) : Context :=
  let c1 := upd_person c i (fun p => { p with was_detected := true })
  { c1 with pop := c1.pop.detect (c1.people i).age }

/-- Mirrors `Person.recover`. -/
def Person.recover (c : Context) (i : Nat) : Context :=
  let c1 := upd_person c i (fun p =>
    { p with state := PersonState.RECOVERED, is_infected := false, has_immunity := true })
  { c1 with pop := c1.pop.recover (c1.people i).age (c1.people i).was_detected }

/-- Mirrors `Person.die`. -/
def Person.die (c : Context) (i : Nat) : Context :=
  let c1 := upd_person c i (fun p =>
    { p with is_infected := false, has_immunity := true, state := PersonState.DEAD })
  { c1 with pop := c1.pop.die (c1.people i).age (c1.people i).was_detected }

/-- Mirrors `Disease.did_infect`: a Bernoulli draw on the source's current
infectiousness. -/
def Disease.did_infect (c : Context) (source : Person) : Option (Bool × Context) :=
  (c.disease.get_source_infectiousness source).map (fun ch =>
    let br := c.random.chance ch
    (br.1, { c with random := br.2 }))

/-- Mirrors `Person.expose` for target index `i` and source index
`source_idx`: already infected or immune targets are never re-infected
through this path. -/
def Person.expose (c : Context) (i : Nat) (source_idx : Nat) : Option (Bool × Context) :=
  let p := c.people i
  if p.is_infected || p.has_immunity then some (false, c)
  else
    (Disease.did_infect c (c.people source_idx)).map (fun bc =>
      if bc.1 = true then (true, Person.infect bc.2 i (some source_idx))
      else (false, bc.2))

/-- Mirrors `Population.contacts_per_day`: a lognormal draw scaled by the
age average, the call factor and the mobility factor, truncated to an int
and clamped by the mass-gathering limit and the call limit. -/
def Population.contacts_per_day (c : Context) (i : Nat) (factor : ℚ) (limit : Int) :
    Int × Context :=
  let factor2 := factor * c.pop.population_mobility_factor
  let xr := c.random.draw_lognormal
  let contacts := py_int (xr.1 * c.pop.avg_contacts_per_day (c.people i).age * factor2)
  let contacts2 :=
    if c.pop.limit_mass_gatherings ≠ 0 then
      (if contacts > c.pop.limit_mass_gatherings then c.pop.limit_mass_gatherings else contacts)
    else contacts
  let contacts3 := if contacts2 > limit then limit else contacts2
  (contacts3, { c with random := xr.2 })

/-- Mirrors `Disease.people_exposed`: detected people expose nobody; people
who are not infectious today expose nobody; otherwise a contacts draw, with
movement restriction (`factor=0.5, limit=5`) for symptomatic ill people. -/
def Disease.people_exposed (c : Context) (i : Nat) : Option (Int × Context) :=
  let p := c.people i
  if p.was_detected then some (0, c)
  else
    (c.disease.get_source_infectiousness p).bind (fun inf =>
      if inf = 0 then some (0, c)
      else if p.state = PersonState.INCUBATION then
        some (Population.contacts_per_day c i 1 100)
      else if p.state = PersonState.ILLNESS then
        if p.symptom_severity = SymptomSeverity.ASYMPTOMATIC then
          some (Population.contacts_per_day c i 1 100)
        else
          some (Population.contacts_per_day c i (1/2) 5)
      else none)

/-- The body of the loop in `Person.expose_others`, iterated `nr_contacts`
times: draw a uniform target index and try to expose it; on success record
the infectee and bump `other_people_infected`.  The computed index carries
an explicit range guard (see the module comment). -/
def Person.expose_loop (i : Nat) : Nat → Context → Option Context
  | 0, c => some c
  | Nat.succ k, c =>
    let vr := c.random.get
    let c1 := { c with random := vr.2 }
    let eidx := py_int (vr.1 * (c1.n_people : ℚ))
    if 0 ≤ eidx ∧ eidx < (c1.n_people : Int) then
      (Person.expose c1 eidx.toNat i).bind (fun bc =>
        if bc.1 = true then
          Person.expose_loop i k (upd_person bc.2 i (fun p =>
            { p with infectees := p.infectees ++ [eidx.toNat],
                     other_people_infected := p.other_people_infected + 1 }))
        else Person.expose_loop i k bc.2)
    else none

/-- Mirrors `Person.expose_others`: record today's exposure count, then run
the exposure loop (`range` of a negative count is empty, hence `toNat`). -/
def Person.expose_others (c : Context) (i : Nat) (nr_contacts : Int) : Option Context :=
  let c1 := upd_person c i (fun p => { p with other_people_exposed_today := nr_contacts })
  Person.expose_loop i nr_contacts.toNat c1

/-- Mirrors `HealthcareSystem.queue_for_testing`: dead, already detected or
already queued people are skipped; otherwise the person is flagged and
appended to the testing queue. -/
def HealthcareSystem.queue_for_testing (c : Context) (person_idx : Nat) : Bool × Context :=
  let p := c.people person_idx
  if p.state = PersonState.DEAD ∨ p.was_detected ∨ p.queued_for_testing then (false, c)
  else
    let c1 := upd_person c person_idx (fun q => { q with queued_for_testing := true })
    (true, { c1 with hc := { c1.hc with testing_queue := c1.hc.testing_queue ++ [person_idx] } })

/-- Mirrors `HealthcareSystem.seek_testing`.  The unreachable
`TestingMode.NO_TESTING` branch raises in the source, hence `none`. -/
def HealthcareSystem.seek_testing (c : Context) (i : Nat) : Option Context :=
  let p := c.people i
  if c.hc.testing_mode = TestingMode.ALL_WITH_SYMPTOMS ∨
     c.hc.testing_mode = TestingMode.ALL_WITH_SYMPTOMS_CT then
    some (HealthcareSystem.queue_for_testing c p.idx).2
  else if c.hc.testing_mode = TestingMode.ONLY_SEVERE_SYMPTOMS then
    if p.symptom_severity = SymptomSeverity.SEVERE ∨
       p.symptom_severity = SymptomSeverity.CRITICAL then
      some (HealthcareSystem.queue_for_testing c p.idx).2
    else
      let br := c.random.chance (2/100)
      let c1 := { c with random := br.2 }
      if br.1 = true then some (HealthcareSystem.queue_for_testing c1 p.idx).2 else some c1
  else none

/-- Mirrors `Person.become_ill`: switch to `ILLNESS`, latch the symptom
severity, set the illness timer, and have symptomatic undetected people seek
testing. -/
def Person.become_ill (c : Context) (i : Nat) : Option Context :=
  let c1 := upd_person c i (fun p => { p with state := PersonState.ILLNESS })
  let sc2 := Disease.get_symptom_severity c1 i
  let sev := sc2.1
  let c3 := upd_person sc2.2 i (fun p => { p with symptom_severity := sev })
  let c4 := upd_person c3 i (fun p => { p with days_left := Disease.get_illness_days })
  if sev ≠ SymptomSeverity.ASYMPTOMATIC then
    if (c4.people i).was_detected = false then HealthcareSystem.seek_testing c4 i
    else some c4
  else some c4

/-- Mirrors `Person.hospitalize`: detect if needed; critical cases request an
ICU unit and die when none is available; severe cases request a ward bed and
on failure draw the no-beds death chance, dying or recovering. -/
def Person.hospitalize (c : Context) (i : Nat) : Context :=
  let c1 := if (c.people i).was_detected then c else Person.detect c i
  if (c1.people i).symptom_severity = SymptomSeverity.CRITICAL then
    let oh := c1.hc.to_icu
    let c2 := { c1 with hc := oh.2 }
    if oh.1 = true then
      let c3 := upd_person c2 i (fun p =>
        { p with state := PersonState.IN_ICU, days_left := Disease.get_icu_days })
      { c3 with pop := c3.pop.hospitalize (c3.people i).age }
    else Person.die c2 i
  else
    let oh := c1.hc.hospitalize
    let c2 := { c1 with hc := oh.2 }
    if oh.1 = true then
      let c3 := upd_person c2 i (fun p =>
        { p with state := PersonState.HOSPITALIZED, days_left := Disease.get_hospitalisation_days })
      { c3 with pop := c3.pop.hospitalize (c3.people i).age }
    else
      let dd := Disease.dies_in_hospital c2 false false
      if dd.1 = true then Person.die dd.2 i else Person.recover dd.2 i

/-- Mirrors `Person.release_from_hospital`: update the ward counter, draw the
in-care death chance for the ward or ICU, release the resource (with its
assert) and die or recover. -/
def Person.release_from_hospital (c : Context) (i : Nat) : Option Context :=
  let c1 := { c with pop := c.pop.release_from_hospital (c.people i).age }
  if (c1.people i).state = PersonState.IN_ICU then
    let dd := Disease.dies_in_hospital c1 true true
    (dd.2.hc.release_from_icu).map (fun h2 =>
      let c3 := { dd.2 with hc := h2 }
      if dd.1 = true then Person.die c3 i else Person.recover c3 i)
  else
    let dd := Disease.dies_in_hospital c1 false true
    (dd.2.hc.release).map (fun h2 =>
      let c3 := { dd.2 with hc := h2 }
      if dd.1 = true then Person.die c3 i else Person.recover c3 i)

/-- Mirrors `Person.advance`, the per-day state machine step for one
(infected) person. -/
def Person.advance (c : Context) (i : Nat) : Option Context :=
  let c0 := upd_person c i (fun p => { p with other_people_exposed_today := 0 })
  if (c0.people i).state = PersonState.INCUBATION then
    (Disease.people_exposed c0 i).bind (fun pc =>
      ((if pc.1 ≠ 0 then Person.expose_others pc.2 i pc.1 else some pc.2).bind (fun c2 =>
        let c3 := upd_person c2 i (fun p => { p with days_left := p.days_left - 1 })
        if (c3.people i).days_left = 0 then Person.become_ill c3 i else some c3)))
  else if (c0.people i).state = PersonState.ILLNESS then
    (Disease.people_exposed c0 i).bind (fun pc =>
      ((if pc.1 ≠ 0 then Person.expose_others pc.2 i pc.1 else some pc.2).bind (fun c2 =>
        let c3 := upd_person c2 i (fun p =>
          { p with day_of_illness := p.day_of_illness + 1, days_left := p.days_left - 1 })
        if (c3.people i).days_left = 0 then
          if (c3.people i).symptom_severity = SymptomSeverity.SEVERE ∨
             (c3.people i).symptom_severity = SymptomSeverity.CRITICAL then
            some (Person.hospitalize c3 i)
          else
            some (Person.recover c3 i)
        else some c3)))
  else if (c0.people i).state = PersonState.HOSPITALIZED ∨
          (c0.people i).state = PersonState.IN_ICU then
    let c1 := upd_person c0 i (fun p => { p with days_left := p.days_left - 1 })
    if (c1.people i).days_left = 0 then Person.release_from_hospital c1 i else some c1
  else some c0

/-- Mirrors `HealthcareSystem.is_detected`: a person with nonzero viral load
is detected; otherwise hospitalized people are detected. -/
def HealthcareSystem.is_detected (dis : Disease) (p : Person) : Option Bool :=
  (dis.get_source_infectiousness p).map (fun ch =>
    if ch ≠ 0 then true
    else decide (p.state = PersonState.HOSPITALIZED ∨ p.state = PersonState.IN_ICU))

/-- Run a list of fallible context transformers in sequence, stopping at the
first failure (the shape of every `for` loop in `calc/simulation.py`). -/
def run_list {α : Type} (f : α → Context → Option Context) :
    List α → Context → Option Context
  | [], c => some c
  | x :: xs, c => (f x c).bind (run_list f xs)

/-- The body of the inner loop of `HealthcareSystem.perform_contact_tracing`:
negative sentinels are skipped; a successful queueing expands the frontier by
the queued person's infector and infectees. -/
def trace_queue_step (st : List Int × Context) (idx : Int) : List Int × Context :=
  if idx < 0 then st
  else
    let oc := HealthcareSystem.queue_for_testing st.2 idx.toNat
    if oc.1 = true then
      let p := oc.2.people idx.toNat
      (st.1 ++ p.infector :: p.infectees.map (fun n => (n : Int)), oc.2)
    else (st.1, oc.2)

/-- One round of `perform_contact_tracing`: process the current contact list,
accumulating the next one. -/
def trace_round (contacts : List Int) (c : Context) : List Int × Context :=
  contacts.foldl trace_queue_step ([], c)

/-- Mirrors `HealthcareSystem.perform_contact_tracing`: the initial contact
list is the person's infector and infectees; then exactly three frontier
rounds (`for i in range(3)`), the successors of the last round being
discarded. -/
def HealthcareSystem.perform_contact_tracing (c : Context) (i : Nat) : Context :=
  let p := c.people i
  let contacts0 := p.infector :: p.infectees.map (fun n => (n : Int))
  let r1 := trace_round contacts0 c
  let r2 := trace_round r1.1 r1.2
  let r3 := trace_round r2.1 r2.2
  r3.2

/-- The body of the testing loop of `HealthcareSystem.iterate` for one queued
index.  The source raises when the queued flag is unset (modelled by `none`),
re-sets the flag, skips non-infected or already detected people, runs the
test, and on detection performs contact tracing in contact-tracing mode. -/
def hc_test_one (idx : Nat) (c : Context) : Option Context :=
  let p := c.people idx
  if p.queued_for_testing = false then none
  else
    let c1 := upd_person c idx (fun q => { q with queued_for_testing := true })
    if p.is_infected = false ∨ p.was_detected then some c1
    else
      (HealthcareSystem.is_detected c1.disease (c1.people idx)).map (fun det =>
        if det = true then
          let c2 := Person.detect c1 idx
          if c2.hc.testing_mode = TestingMode.ALL_WITH_SYMPTOMS_CT then
            HealthcareSystem.perform_contact_tracing c2 idx
          else c2
        else c1)

/-- Mirrors `HealthcareSystem.iterate`: snapshot today's queue, count it as
`tests_run_per_day`, swap in an empty queue, then process every queued
index. -/
def HealthcareSystem.iterate (c : Context) : Option Context :=
  let queue := c.hc.testing_queue
  let c1 := { c with hc :=
    { c.hc with tests_run_per_day := queue.length, testing_queue := [] } }
  run_list hc_test_one queue c1

/-- The loop of the `import-infections` intervention: `count` times, draw a
uniform person index and infect it unconditionally (no susceptibility
check in the source).  The computed index carries the range guard. -/
def import_infections_loop : Nat → Context → Option Context
  | 0, c => some c
  | Nat.succ k, c =>
    let vr := c.random.get
    let c1 := { c with random := vr.2 }
    let idx := py_int (vr.1 * (c1.n_people : ℚ))
    if 0 ≤ idx ∧ idx < (c1.n_people : Int) then
      import_infections_loop k (Person.infect c1 idx.toNat none)
    else none

/-- Mirrors `Context.apply_intervention`; an unknown intervention name
raises in the source, modelled by `none`. -/
def Context.apply_intervention (c : Context) (iv : Intervention) : Option Context :=
  if iv.name = "test-all-with-symptoms" then
    some { c with hc := c.hc.set_testing_mode TestingMode.ALL_WITH_SYMPTOMS }
  else if iv.name = "test-only-severe-symptoms" then
    some { c with hc := c.hc.set_testing_mode TestingMode.ONLY_SEVERE_SYMPTOMS }
  else if iv.name = "test-with-contact-tracing" then
    some { c with hc := c.hc.set_testing_mode TestingMode.ALL_WITH_SYMPTOMS_CT }
  else if iv.name = "build-new-icu-units" then
    some { c with hc := { c.hc with
      icu_units := c.hc.icu_units + iv.value,
      available_icu_units := c.hc.available_icu_units + iv.value } }
  else if iv.name = "build-new-hospital-beds" then
    some { c with hc := { c.hc with
      beds := c.hc.beds + iv.value,
      available_beds := c.hc.available_beds + iv.value } }
  else if iv.name = "import-infections" then
    import_infections_loop iv.value.toNat c
  else if iv.name = "limit-mass-gatherings" then
    some { c with pop := { c.pop with limit_mass_gatherings := iv.value } }
  else if iv.name = "limit-mobility" then
    some { c with pop := { c.pop with
      population_mobility_factor := (100 - (iv.value : ℚ)) / 100 } }
  else none

/-- The body of the people loop of `Context.iterate` for the person at index
`i`: skip the non-infected, advance the rest, accumulate today's exposures,
and count the person as an infector when they are in `ILLNESS` after their
advance step. -/
def person_step (i : Nat) (c : Context) : Option Context :=
  if (c.people i).is_infected = false then some c
  else
    (Person.advance c i).map (fun c1 =>
      let c2 := { c1 with exposed_per_day :=
        c1.exposed_per_day + (c1.people i).other_people_exposed_today }
      if (c2.people i).state = PersonState.ILLNESS then
        { c2 with total_infectors := c2.total_infectors + 1,
                  total_infections := c2.total_infections + (c2.people i).other_people_infected }
      else c2)

/-- Mirrors `Context.iterate`: apply the interventions due today, zero the
per-day tallies, run the healthcare system, advance every infected person in
index order, then increment the day counter. -/
def Context.iterate (c : Context) : Option Context :=
  (run_list
      (fun iv cc => if iv.day = cc.day then Context.apply_intervention cc iv else some cc)
      c.interventions c).bind (fun c1 =>
    (HealthcareSystem.iterate
        { c1 with total_infectors := 0, total_infections := 0, exposed_per_day := 0 }).bind (fun c3 =>
      (run_list person_step (List.range c3.n_people) c3).map (fun c4 =>
        { c4 with day := c4.day + 1 })))

/-- Mirrors the day loop of `simulate_individuals`: each day first emits the
`generate_state` snapshot, then iterates; an exception aborts the run after
the snapshots emitted so far. -/
def run_days : Nat → Context → List ModelState × Option Context
  | 0, c => ([], some c)
  | Nat.succ n, c =>
    let s := c.generate_state
    match Context.iterate c with
    | none => ([s], none)
    | some c2 =>
      let (rest, fin) := run_days n c2
      (s :: rest, fin)

/-- The age of the person at position `i` in the population built by
`create_population`: people are appended age by age, `count` of each. -/
def age_of_idx_go : List Nat → Nat → Nat → Nat
  | [], _, a => a
  | cnt :: rest, i, a => if i < cnt then a else age_of_idx_go rest (i - cnt) (a + 1)

/-- Mirrors `create_population` as a total indexing function. -/
def create_population (age_counts : List Nat) : Nat → Person :=
  fun i => Person.init i (age_of_idx_go age_counts i 0)

/-- The inputs of `simulate_individuals`: the population and contact data,
the healthcare capacities, the disease variables (as percentages, exactly as
the `variables` dict carries them), the intervention list (already converted
to day offsets by `make_iv`), the horizon, and the seeded random streams. -/
structure SimInputs where
  age_counts : List Nat
  avg_contacts : Nat → ℚ
  hospital_beds : Int
  icu_units : Int
  p_infection : ℚ
  p_asymptomatic : ℚ
  p_severe : List (ℚ × ℚ)
  p_critical : ℚ
  p_hospital_death : ℚ
  p_icu_death : ℚ
  p_hospital_death_no_beds : ℚ
  p_icu_death_no_beds : ℚ
  interventions : List Intervention
  simulation_days : Nat
  uniform_stream : Nat → ℚ
  lognormal_stream : Nat → ℚ

/-- The construction phase of `simulate_individuals`: build the population,
the healthcare system, the disease (percentages divided by 100) and the
context.  Note that it is total: no intervention validation happens here. -/
def make_context (inp : SimInputs) : Context where
  pop := Population.init inp.age_counts inp.avg_contacts
  hc := HealthcareSystem.init inp.hospital_beds inp.icu_units
  disease :=
    { p_infection := inp.p_infection / 100
      p_asymptomatic := inp.p_asymptomatic / 100
      p_critical := inp.p_critical / 100
      p_hospital_death := inp.p_hospital_death / 100
      p_icu_death := inp.p_icu_death / 100
      p_hospital_death_no_beds := inp.p_hospital_death_no_beds / 100
      p_icu_death_no_beds := inp.p_icu_death_no_beds / 100
      p_severe := inp.p_severe.map (fun row => (row.1, row.2 / 100)) }
  random := { uniform := inp.uniform_stream, lognormal := inp.lognormal_stream, pos := 0 }
  day := 0
  people := create_population inp.age_counts
  n_people := inp.age_counts.sum
  interventions := inp.interventions
  total_infections := 0
  total_infectors := 0
  exposed_per_day := 0

/-- Mirrors `simulate_individuals`: construct the context and run the day
loop, returning the per-day snapshots and the final context (or `none` after
an exception). -/
def simulate_individuals (inp : SimInputs) : List ModelState × Option Context :=
  run_days inp.simulation_days (make_context inp)

/-! ## Derived definitions and fixtures used by the theorems -/

/-- The per-age susceptible + infected + recovered + dead total of the
population counters. -/
def sird_sum (p : Population) (a : Nat) : Int :=
  p.susceptible a + p.infected a + p.recovered a + p.dead a

/-- `n`-fold application of `Context.iterate` (n simulated days). -/
def iterate_n : Nat → Context → Option Context
  | 0, c => some c
  | Nat.succ n, c => (Context.iterate c).bind (iterate_n n)

/-- The per-day testing queues handed to `HealthcareSystem.iterate` along a
run: the queue at the start of each day (interventions never touch the
queue, so this is the queue the testing loop processes). -/
def processed_queues : Nat → Context → List (List Nat)
  | 0, _ => []
  | Nat.succ n, c =>
    c.hc.testing_queue ::
      (match Context.iterate c with
       | none => []
       | some c2 => processed_queues n c2)

/-- The contact edges used by contact tracing: a person's infector sentinel
and infectee list. -/
def contact_neighbors (c : Context) (j : Nat) : List Int :=
  (c.people j).infector :: (c.people j).infectees.map (fun n => (n : Int))

/-- `within_reach c s d j`: `j` is reachable from `s` in at most `d` hops of
the infector/infectee graph of `c`. -/
def within_reach (c : Context) (s : Nat) : Nat → Nat → Prop
  | 0, j => j = s
  | Nat.succ d, j =>
    within_reach c s d j ∨ ∃ k, within_reach c s d k ∧ (j : Int) ∈ contact_neighbors c k

/-- The intervention type names known to `Context.apply_intervention`. -/
def known_intervention_names : List String :=
  ["test-all-with-symptoms", "test-only-severe-symptoms", "test-with-contact-tracing",
   "build-new-icu-units", "build-new-hospital-beds", "import-infections",
   "limit-mass-gatherings", "limit-mobility"]

/-- The bookkeeping relation preserved by every engine operation: the
per-age susceptible+infected+recovered+dead totals never change, and the
`was_detected` and `queued_for_testing` person flags are never cleared. -/
def StepRel (c c2 : Context) : Prop :=
  (∀ a, sird_sum c2.pop a = sird_sum c.pop a) ∧
  (∀ j, (c.people j).was_detected = true → (c2.people j).was_detected = true) ∧
  (∀ j, (c.people j).queued_for_testing = true → (c2.people j).queued_for_testing = true)

/-- Queue accounting relation: the testing-queue count of an index can grow
only when that index's `queued_for_testing` flag flips on (by at most one),
and cannot change at all while the flag stays off.  It holds for every
engine operation except the queue swap inside `HealthcareSystem.iterate`. -/
def QueueRel (c c2 : Context) : Prop :=
  ∀ j,
    (c2.hc.testing_queue.count j +
        (if (c.people j).queued_for_testing = true then 1 else 0) ≤
      c.hc.testing_queue.count j +
        (if (c2.people j).queued_for_testing = true then 1 else 0)) ∧
    ((c2.people j).queued_for_testing = false →
      c2.hc.testing_queue.count j = c.hc.testing_queue.count j)

/-- `StepRel` together with `QueueRel`. -/
def FullRel (c c2 : Context) : Prop := StepRel c c2 ∧ QueueRel c c2

/-- A disease parameter block used by the concrete fixtures. -/
def base_disease : Disease where
  p_infection := 1/10
  p_asymptomatic := 1/2
  p_critical := 1/5
  p_hospital_death := 1/10
  p_icu_death := 3/10
  p_hospital_death_no_beds := 1/2
  p_icu_death_no_beds := 1
  p_severe := [(0, 0), (50, 1/10)]

/-- A concrete random pool whose uniform draws are all `7/10` and whose
lognormal draws are all `1/2`. -/
def base_random : RandomPool where
  uniform := fun _ => 7/10
  lognormal := fun _ => 1/2
  pos := 0

/-- A severely ill person on the last day of illness (infectiousness window
already over). -/
def severe_person : Person :=
  { Person.init 0 40 with
      is_infected := true
      state := PersonState.ILLNESS
      symptom_severity := SymptomSeverity.SEVERE
      day_of_illness := 11
      days_left := 1 }

/-- A healthcare system constructed with zero ward beds and zero ICU units,
one severely ill person, and a death draw that fails (`7/10 ≥ 1/2`). -/
def severe_no_beds_context : Context where
  pop := Population.init [0] (fun _ => 10)
  hc := HealthcareSystem.init 0 0
  disease := base_disease
  random := base_random
  day := 0
  people := fun j => if j = 0 then severe_person else Person.init j 40
  n_people := 1
  interventions := []
  total_infections := 0
  total_infectors := 0
  exposed_per_day := 0

/-- A small all-zero-population input with one ICU-building intervention on
day 1, used against the snapshot timing claim. -/
def icu_inputs : SimInputs where
  age_counts := []
  avg_contacts := fun _ => 10
  hospital_beds := 3
  icu_units := 1
  p_infection := 10
  p_asymptomatic := 50
  p_severe := [(0, 0), (50, 10)]
  p_critical := 20
  p_hospital_death := 10
  p_icu_death := 30
  p_hospital_death_no_beds := 50
  p_icu_death_no_beds := 100
  interventions := [{ day := 1, name := "build-new-icu-units", value := 5 }]
  simulation_days := 4
  uniform_stream := fun _ => 7/10
  lognormal_stream := fun _ => 1/2

/-- The same input with a single intervention of an unknown type on day 1. -/
def bogus_inputs : SimInputs :=
  { icu_inputs with interventions := [{ day := 1, name := "quarantine-everyone", value := 0 }] }

/-- A two-person context for contact tracing: person 0 infected person 1;
contact-tracing testing mode is active with intervention efficiency 50, and
every uniform draw is `9/10` (which would fail a 50 % test). -/
def tracing_context : Context where
  pop := Population.init [0] (fun _ => 10)
  hc := { HealthcareSystem.init 3 1 with testing_mode := TestingMode.ALL_WITH_SYMPTOMS_CT }
  disease := base_disease
  random := { uniform := fun _ => 9/10, lognormal := fun _ => 1/2, pos := 0 }
  day := 0
  people := fun j =>
    if j = 0 then
      { Person.init 0 40 with
          is_infected := true
          state := PersonState.ILLNESS
          symptom_severity := SymptomSeverity.MILD
          infectees := [1] }
    else Person.init j 40
  n_people := 2
  interventions := [{ day := 0, name := "test-with-contact-tracing", value := 50 }]
  total_infections := 0
  total_infectors := 0
  exposed_per_day := 0

/-- The same zero-capacity situation with a critically ill person. -/
def critical_no_icu_context : Context :=
  { severe_no_beds_context with
      people := fun j =>
        if j = 0 then { severe_person with symptom_severity := SymptomSeverity.CRITICAL }
        else Person.init j 40 }

/-- A tiny input set for the conservation witness: three people in two age
buckets, one simulated day, no interventions. -/
def conservation_inputs : SimInputs where
  age_counts := [2, 1]
  avg_contacts := fun _ => 1
  hospital_beds := 1
  icu_units := 1
  p_infection := 10
  p_asymptomatic := 50
  p_severe := [(0, 0)]
  p_critical := 20
  p_hospital_death := 10
  p_icu_death := 30
  p_hospital_death_no_beds := 50
  p_icu_death_no_beds := 100
  interventions := []
  simulation_days := 1
  uniform_stream := fun _ => 7/10
  lognormal_stream := fun _ => 1/2

/-- Locality relation for the detected-person claim, relative to a person
index `i`: no other person's record changes, nobody leaves the susceptible
pool, and person `i` records no new infections (their
`other_people_infected` counter and `infectees` list are unchanged). -/
def DetRel (i : Nat) (c c2 : Context) : Prop :=
  (∀ j, j ≠ i → c2.people j = c.people j) ∧
  (∀ a, c2.pop.susceptible a = c.pop.susceptible a) ∧
  (c2.people i).other_people_infected = (c.people i).other_people_infected ∧
  (c2.people i).infectees = (c.people i).infectees

/-- A context whose person 0 is infected, ill and already detected. -/
def detected_context : Context :=
  { severe_no_beds_context with
      people := fun j =>
        if j = 0 then { severe_person with was_detected := true }
        else Person.init j 40 }

/-- The running infector/infection tallies of a context, as a pair. -/
def tallies (c : Context) : Nat × Nat := (c.total_infectors, c.total_infections)

/-- The number of times index `j` appears across a list of testing queues:
the number of tests run on person `j` over those queues. -/
def queued_count (j : Nat) (qs : List (List Nat)) : Nat :=
  (qs.map (fun q => q.count j)).sum

/-- Queue accounting invariant for one person: an unflagged person is not in
the current testing queue, and nobody is in it twice. -/
def QInv (j : Nat) (c : Context) : Prop :=
  ((c.people j).queued_for_testing = false → c.hc.testing_queue.count j = 0) ∧
  c.hc.testing_queue.count j ≤ 1

/-! ## Projection lemmas for the basic state transformers -/

theorem upd_person_people_apply (c : Context) (i : Nat) (f : Person → Person) (j : Nat) :
    (upd_person c i f).people j = if j = i then f (c.people i) else c.people j := rfl

theorem upd_person_people_self (c : Context) (i : Nat) (f : Person → Person) :
    (upd_person c i f).people i = f (c.people i) := by
  simp [upd_person]

theorem upd_person_people_ne (c : Context) (i : Nat) (f : Person → Person) (j : Nat)
    (h : j ≠ i) : (upd_person c i f).people j = c.people j := by
  simp [upd_person, h]

/-! ## C8: incubation period bounds -/

/-- C8: for every context (hence every person and every random state) in
which the pending lognormal draw is nonnegative — lognormal variates are
positive — `Disease.get_incubation_days` returns an integer number of days
in the interval [1, 14]. -/
theorem incubation_days_between_one_and_fourteen (c : Context)
    (h : 0 ≤ c.random.lognormal c.random.pos) :
    1 ≤ (Disease.get_incubation_days c).1 ∧ (Disease.get_incubation_days c).1 ≤ 14 := by
  have hx : (0 : ℚ) ≤ c.random.lognormal c.random.pos * 4 := by
    have h4 : (0 : ℚ) ≤ 4 := by norm_num
    exact mul_nonneg h h4
  have hfl : 0 ≤ Int.floor (c.random.lognormal c.random.pos * 4) := Int.floor_nonneg.mpr hx
  unfold Disease.get_incubation_days RandomPool.draw_lognormal py_int
  simp only [hx, if_pos]
  constructor
  · split
    · norm_num
    · omega
  · split
    · norm_num
    · omega

/-- Witness for C8 at the concrete context `severe_no_beds_context`. -/
theorem incubation_days_between_one_and_fourteen_witness :
    (0 : ℚ) ≤ severe_no_beds_context.random.lognormal severe_no_beds_context.random.pos ∧
    1 ≤ (Disease.get_incubation_days severe_no_beds_context).1 ∧
    (Disease.get_incubation_days severe_no_beds_context).1 ≤ 14 :=
  ⟨by norm_num [severe_no_beds_context, base_random],
   incubation_days_between_one_and_fourteen severe_no_beds_context
     (by norm_num [severe_no_beds_context, base_random])⟩

/-! ## C2: determinism -/

/-- C2: two runs constructed from identical inputs (same population, contact
averages, disease parameters, interventions, horizon and random streams,
i.e. the same seed) produce snapshot sequences that are identical in every
field on every day: the simulation is a pure function of its inputs. -/
theorem simulate_individuals_deterministic (i1 i2 : SimInputs) (h : i1 = i2) :
    ∀ (d : Nat) (s1 s2 : ModelState),
      (simulate_individuals i1).1.get? d = some s1 →
      (simulate_individuals i2).1.get? d = some s2 →
      s1 = s2 := by
  subst h
  intro d s1 s2 h1 h2
  rw [h1] at h2
  exact Option.some.inj h2

/-- Witness for C2: the two runs on the concrete `icu_inputs` agree on day
0's snapshot. -/
theorem simulate_individuals_deterministic_witness :
    (make_context icu_inputs).generate_state = (make_context icu_inputs).generate_state :=
  simulate_individuals_deterministic icu_inputs icu_inputs rfl 0
    (make_context icu_inputs).generate_state (make_context icu_inputs).generate_state
    rfl rfl

/-! ## C3: zero-capacity outcomes -/

/-- C3 counterexample: in `severe_no_beds_context` (built with
`hospital_beds = 0`, `icu_units = 0`) the severely ill person 0 finishes the
illness period and RECOVERS — they do not die — because the no-beds death
draw (`p_hospital_death_no_beds = 1/2` against the uniform draw `7/10`)
fails.  This refutes "every person whose latched symptom severity is SEVERE
dies at the end of their illness period". -/
theorem severe_no_beds_survival_counterexample :
    severe_no_beds_context.hc.beds = 0 ∧
    severe_no_beds_context.hc.icu_units = 0 ∧
    (severe_no_beds_context.people 0).symptom_severity = SymptomSeverity.SEVERE ∧
    (Person.advance severe_no_beds_context 0).map (fun c => (c.people 0).state) =
      some PersonState.RECOVERED ∧
    PersonState.RECOVERED ≠ PersonState.DEAD := by
  refine ⟨rfl, rfl, rfl, ?_, by decide⟩
  norm_num +decide [Person.advance, severe_no_beds_context, severe_person, Person.init, base_disease,
    base_random, Population.init, HealthcareSystem.init, upd_person, Disease.people_exposed,
    Disease.get_source_infectiousness, infectiousness_scan, INFECTIOUSNESS_OVER_TIME,
    Person.hospitalize, Person.detect, Person.die, Person.recover, HealthcareSystem.hospitalize,
    Disease.dies_in_hospital, RandomPool.chance, RandomPool.get, Population.detect,
    Population.recover, Population.die, Population.hospitalize, bump, Option.bind]

theorem detect_people_self (c : Context) (i : Nat) :
    (Person.detect c i).people i = { c.people i with was_detected := true } := by
  simp [Person.detect, upd_person]

theorem detect_hc (c : Context) (i : Nat) : (Person.detect c i).hc = c.hc := rfl

theorem detect_random (c : Context) (i : Nat) : (Person.detect c i).random = c.random := rfl

theorem detect_disease (c : Context) (i : Nat) : (Person.detect c i).disease = c.disease := rfl

theorem die_state_self (c : Context) (i : Nat) :
    ((Person.die c i).people i).state = PersonState.DEAD := by
  simp [Person.die, upd_person]

theorem recover_state_self (c : Context) (i : Nat) :
    ((Person.recover c i).people i).state = PersonState.RECOVERED := by
  simp [Person.recover, upd_person]

/-- C3 as amended: with no ICU units available, a critically ill person who
reaches hospitalization always dies; with no ward beds available, a severely
ill person dies exactly when the `p_hospital_death_no_beds` draw succeeds,
and otherwise recovers. -/
theorem hospitalize_no_capacity_outcomes (c : Context) (i : Nat) :
    ((c.people i).symptom_severity = SymptomSeverity.CRITICAL →
      c.hc.available_icu_units = 0 →
      ((Person.hospitalize c i).people i).state = PersonState.DEAD) ∧
    ((c.people i).symptom_severity = SymptomSeverity.SEVERE →
      c.hc.available_beds = 0 →
      ((Person.hospitalize c i).people i).state =
        (if (c.random.chance c.disease.p_hospital_death_no_beds).1 = true then PersonState.DEAD
         else PersonState.RECOVERED)) := by
  constructor
  · intro hsev hicu
    by_cases hd : (c.people i).was_detected = true
    · simp [Person.hospitalize, hd, hsev, HealthcareSystem.to_icu, hicu, die_state_self]
    · simp [Person.hospitalize, hd, hsev, HealthcareSystem.to_icu, hicu, die_state_self,
        detect_people_self, detect_hc]
  · intro hsev hbeds
    have hns : (c.people i).symptom_severity ≠ SymptomSeverity.CRITICAL := by
      rw [hsev]; decide
    by_cases hch : (c.random.chance c.disease.p_hospital_death_no_beds).1 = true
    · by_cases hd : (c.people i).was_detected = true
      · simp [Person.hospitalize, hd, hns, HealthcareSystem.hospitalize, hbeds,
          Disease.dies_in_hospital, hch, die_state_self]
      · simp [Person.hospitalize, hd, hns, HealthcareSystem.hospitalize, hbeds,
          Disease.dies_in_hospital, hch, die_state_self, detect_people_self, detect_hc,
          detect_random, detect_disease]
    · by_cases hd : (c.people i).was_detected = true
      · simp [Person.hospitalize, hd, hns, HealthcareSystem.hospitalize, hbeds,
          Disease.dies_in_hospital, hch, recover_state_self]
      · simp [Person.hospitalize, hd, hns, HealthcareSystem.hospitalize, hbeds,
          Disease.dies_in_hospital, hch, recover_state_self, detect_people_self, detect_hc,
          detect_random, detect_disease]

/-- Witness for the amended C3 at the concrete zero-capacity contexts: the
critical person dies. -/
theorem hospitalize_no_capacity_outcomes_witness :
    ((Person.hospitalize critical_no_icu_context 0).people 0).state = PersonState.DEAD :=
  (hospitalize_no_capacity_outcomes critical_no_icu_context 0).1 rfl rfl

/-! ## C4: ICU-building intervention timing -/

/-- C4 counterexample: with a `build-new-icu-units(5)` intervention on day
D = 1 (and one pre-existing unit), the snapshot emitted for day 1 still
shows 1 available ICU unit — not 1 + 5.  The increase appears in the day-2
snapshot.  This refutes the claim that the increase is visible already in
the snapshot emitted for day D. -/
theorem icu_intervention_snapshot_counterexample :
    icu_inputs.interventions = [{ day := 1, name := "build-new-icu-units", value := 5 }] ∧
    ((simulate_individuals icu_inputs).1.get? 1).map (fun s => s.available_icu_units) = some 1 ∧
    ((simulate_individuals icu_inputs).1.get? 2).map (fun s => s.available_icu_units) = some 6 ∧
    (1 : Int) ≠ 1 + 5 := by
  exact ⟨rfl, by decide, by decide, by decide⟩

theorem iterate_empty_icu_iv (c : Context) (D v : Int)
    (h1 : c.n_people = 0) (h2 : c.hc.testing_queue = [])
    (h3 : c.interventions = [{ day := D, name := "build-new-icu-units", value := v }]) :
    (Context.iterate c).map (fun c2 =>
        (c2.day, c2.n_people, c2.hc.testing_queue, c2.interventions,
         c2.hc.icu_units, c2.hc.available_icu_units)) =
      some (c.day + 1, c.n_people, [], c.interventions,
        c.hc.icu_units + (if D = c.day then v else 0),
        c.hc.available_icu_units + (if D = c.day then v else 0)) := by
  by_cases hD : D = c.day <;>
    simp [Context.iterate, run_list, h3, hD, Context.apply_intervention,
      HealthcareSystem.iterate, h2, h1, List.range_zero]

theorem run_days_icu_avail (D v : Int) :
    ∀ (days k : Nat) (c : Context), c.n_people = 0 → c.hc.testing_queue = [] →
      c.interventions = [{ day := D, name := "build-new-icu-units", value := v }] →
      k < days →
      ((run_days days c).1.get? k).map (fun s => s.available_icu_units) =
        some (c.hc.available_icu_units + (if c.day ≤ D ∧ D < c.day + k then v else 0)) := by
  intro days
  induction days with
  | zero => intro k c _ _ _ hk; omega
  | succ n ih =>
    intro k c h1 h2 h3 hk
    have hmap := iterate_empty_icu_iv c D v h1 h2 h3
    cases hit : Context.iterate c with
    | none => rw [hit] at hmap; simp at hmap
    | some c2 =>
      rw [hit] at hmap
      simp only [Option.map_some', Option.some.injEq, Prod.mk.injEq] at hmap
      obtain ⟨hday, hnp, hq, hiv, _hicu, havail⟩ := hmap
      cases k with
      | zero =>
        have hcond : ¬ (c.day ≤ D ∧ D < c.day + (0 : Nat)) := by
          intro hcontra; omega
        simp [run_days, hit, Context.generate_state, hcond]
      | succ k2 =>
        have hrest :
            ((run_days (Nat.succ n) c).1.get? (Nat.succ k2)) =
              ((run_days n c2).1.get? k2) := by
          simp [run_days, hit]
        rw [hrest, ih k2 c2 (hnp.trans h1) hq (hiv.trans h3) (by omega)]
        rw [havail, hday]
        simp only [Option.some.injEq]
        split_ifs <;> omega

/-- C4 as amended: applying a `build-new-icu-units(n)` intervention
increases both `icu_units` and `available_icu_units` by exactly n, but the
driver emits the day-D snapshot before `Context.iterate` applies the day-D
interventions, so (in an otherwise quiet run) the increase is first visible
in the snapshot of day D+1; the day-D snapshot is unchanged. -/
theorem icu_intervention_effect_next_snapshot :
    (∀ (c : Context) (d v : Int),
      (Context.apply_intervention c { day := d, name := "build-new-icu-units", value := v }).map
          (fun c2 => (c2.hc.icu_units, c2.hc.available_icu_units)) =
        some (c.hc.icu_units + v, c.hc.available_icu_units + v)) ∧
    (∀ (D v : Int) (days k : Nat) (c : Context),
      c.n_people = 0 → c.hc.testing_queue = [] →
      c.interventions = [{ day := D, name := "build-new-icu-units", value := v }] →
      k < days →
      ((run_days days c).1.get? k).map (fun s => s.available_icu_units) =
        some (c.hc.available_icu_units + (if c.day ≤ D ∧ D < c.day + k then v else 0))) := by
  constructor
  · intro c d v
    simp [Context.apply_intervention]
  · intro D v days k c h1 h2 h3 hk
    exact run_days_icu_avail D v days k c h1 h2 h3 hk

/-- Witness for the amended C4 on the concrete `icu_inputs` run: the day-2
snapshot shows the day-1 intervention (1 + 5 units). -/
theorem icu_intervention_effect_next_snapshot_witness :
    ((run_days 4 (make_context icu_inputs)).1.get? 2).map (fun s => s.available_icu_units) =
      some ((make_context icu_inputs).hc.available_icu_units +
        (if (make_context icu_inputs).day ≤ 1 ∧ (1 : Int) < (make_context icu_inputs).day + 2
         then 5 else 0)) :=
  icu_intervention_effect_next_snapshot.2 1 5 4 2 (make_context icu_inputs)
    rfl rfl rfl (by omega)

/-! ## C5: unknown intervention types -/

theorem apply_intervention_unknown (c : Context) (iv : Intervention)
    (h : iv.name ∉ known_intervention_names) :
    Context.apply_intervention c iv = none := by
  simp only [known_intervention_names, List.mem_cons, List.not_mem_nil, or_false,
    not_or] at h
  obtain ⟨g1, g2, g3, g4, g5, g6, g7, g8⟩ := h
  simp [Context.apply_intervention, g1, g2, g3, g4, g5, g6, g7, g8]

theorem iterate_empty_unknown_iv (c : Context) (D : Int) (nm : String) (v : Int)
    (h1 : c.n_people = 0) (h2 : c.hc.testing_queue = [])
    (h3 : c.interventions = [{ day := D, name := nm, value := v }])
    (h4 : nm ∉ known_intervention_names) :
    (D = c.day → Context.iterate c = none) ∧
    (D ≠ c.day →
      (Context.iterate c).map (fun c2 =>
          (c2.day, c2.n_people, c2.hc.testing_queue, c2.interventions)) =
        some (c.day + 1, c.n_people, [], c.interventions)) := by
  constructor
  · intro hD
    subst hD
    have hnone := apply_intervention_unknown c { day := c.day, name := nm, value := v } h4
    simp [Context.iterate, run_list, h3, hnone]
  · intro hD
    simp [Context.iterate, run_list, h3, hD, HealthcareSystem.iterate, h2, h1,
      List.range_zero]

theorem run_days_unknown_iv (D : Int) (nm : String) (v : Int)
    (hnm : nm ∉ known_intervention_names) :
    ∀ (days : Nat) (c : Context), c.n_people = 0 → c.hc.testing_queue = [] →
      c.interventions = [{ day := D, name := nm, value := v }] →
      c.day ≤ D → (D - c.day) < (days : Int) →
      (run_days days c).1.length = (D - c.day).toNat + 1 ∧
      (run_days days c).2 = none := by
  intro days
  induction days with
  | zero => intro c _ _ _ hle hlt; simp at hlt; omega
  | succ n ih =>
    intro c h1 h2 h3 hle hlt
    have hiter := iterate_empty_unknown_iv c D nm v h1 h2 h3 hnm
    by_cases hD : D = c.day
    · have hnone := hiter.1 hD
      have hD0 : D - c.day = 0 := by omega
      simp [run_days, hnone, hD0]
    · have hmap := hiter.2 hD
      cases hit : Context.iterate c with
      | none => rw [hit] at hmap; simp at hmap
      | some c2 =>
        rw [hit] at hmap
        simp only [Option.map_some', Option.some.injEq, Prod.mk.injEq] at hmap
        obtain ⟨hday, hnp, hq, hiv⟩ := hmap
        have hrec := ih c2 (hnp.trans h1) hq (hiv.trans h3) (by omega) (by omega)
        constructor
        · have : (run_days (Nat.succ n) c).1.length = (run_days n c2).1.length + 1 := by
            simp [run_days, hit]
          rw [this, hrec.1, hday]
          omega
        · have : (run_days (Nat.succ n) c).2 = (run_days n c2).2 := by
            simp [run_days, hit]
          rw [this, hrec.2]

/-- C5 counterexample: `bogus_inputs` carries one intervention with the
unknown type `quarantine-everyone` scheduled for day 1, in a 4-day run.
Construction succeeds, the day loop is entered, snapshots for days 0 and 1
are emitted, and only then does the run abort — refuting "an error is
raised at construction time and the simulation never starts". -/
theorem unknown_intervention_runtime_counterexample :
    bogus_inputs.interventions = [{ day := 1, name := "quarantine-everyone", value := 0 }] ∧
    bogus_inputs.simulation_days = 4 ∧
    (simulate_individuals bogus_inputs).1.length = 2 ∧
    1 ≤ (simulate_individuals bogus_inputs).1.length ∧
    (simulate_individuals bogus_inputs).2.isNone = true := by
  exact ⟨rfl, rfl, by decide, by decide, by decide⟩

/-- C5 as amended: an intervention whose type string is unknown is an error,
but it is raised only when the simulation reaches the intervention's
scheduled day: `Context.apply_intervention` fails on it, construction does
no validation, and an (otherwise quiet) run emits the D+1 snapshots for
days 0..D before aborting with the error. -/
theorem unknown_intervention_fails_at_scheduled_day :
    (∀ (c : Context) (iv : Intervention), iv.name ∉ known_intervention_names →
      Context.apply_intervention c iv = none) ∧
    (∀ (D : Int) (nm : String) (v : Int) (days : Nat) (c : Context),
      nm ∉ known_intervention_names →
      c.n_people = 0 → c.hc.testing_queue = [] →
      c.interventions = [{ day := D, name := nm, value := v }] →
      c.day ≤ D → (D - c.day) < (days : Int) →
      (run_days days c).1.length = (D - c.day).toNat + 1 ∧
      (run_days days c).2 = none) := by
  constructor
  · exact apply_intervention_unknown
  · intro D nm v days c hnm h1 h2 h3 hle hlt
    exact run_days_unknown_iv D nm v hnm days c h1 h2 h3 hle hlt

/-- Witness for the amended C5 on the concrete `bogus_inputs` run. -/
theorem unknown_intervention_fails_at_scheduled_day_witness :
    (run_days 4 (make_context bogus_inputs)).1.length = ((1 : Int) - 0).toNat + 1 ∧
    (run_days 4 (make_context bogus_inputs)).2 = none :=
  unknown_intervention_fails_at_scheduled_day.2 1 "quarantine-everyone" 0 4
    (make_context bogus_inputs) (by decide) rfl rfl rfl (by decide) (by decide)

/-! ## C6: contact tracing -/

theorem queue_for_testing_false_unchanged (c : Context) (idx : Nat)
    (h : (HealthcareSystem.queue_for_testing c idx).1 = false) :
    (HealthcareSystem.queue_for_testing c idx).2 = c := by
  by_cases hcond : ((c.people idx).state = PersonState.DEAD ∨
      (c.people idx).was_detected = true ∨ (c.people idx).queued_for_testing = true)
  · simp [HealthcareSystem.queue_for_testing, hcond]
  · simp [HealthcareSystem.queue_for_testing, hcond] at h

theorem queue_for_testing_random (c : Context) (idx : Nat) :
    (HealthcareSystem.queue_for_testing c idx).2.random = c.random := by
  by_cases hcond : ((c.people idx).state = PersonState.DEAD ∨
      (c.people idx).was_detected = true ∨ (c.people idx).queued_for_testing = true) <;>
    simp [HealthcareSystem.queue_for_testing, hcond, upd_person]

theorem queue_for_testing_infector (c : Context) (idx j : Nat) :
    ((HealthcareSystem.queue_for_testing c idx).2.people j).infector = (c.people j).infector := by
  by_cases hcond : ((c.people idx).state = PersonState.DEAD ∨
      (c.people idx).was_detected = true ∨ (c.people idx).queued_for_testing = true)
  · simp [HealthcareSystem.queue_for_testing, hcond]
  · by_cases hj : j = idx <;>
      simp [HealthcareSystem.queue_for_testing, hcond, upd_person, hj]

theorem queue_for_testing_infectees (c : Context) (idx j : Nat) :
    ((HealthcareSystem.queue_for_testing c idx).2.people j).infectees = (c.people j).infectees := by
  by_cases hcond : ((c.people idx).state = PersonState.DEAD ∨
      (c.people idx).was_detected = true ∨ (c.people idx).queued_for_testing = true)
  · simp [HealthcareSystem.queue_for_testing, hcond]
  · by_cases hj : j = idx <;>
      simp [HealthcareSystem.queue_for_testing, hcond, upd_person, hj]

theorem queue_for_testing_queued (c : Context) (idx j : Nat)
    (h : ((HealthcareSystem.queue_for_testing c idx).2.people j).queued_for_testing = true) :
    (c.people j).queued_for_testing = true ∨ j = idx := by
  by_cases hj : j = idx
  · exact Or.inr hj
  · left
    by_cases hcond : ((c.people idx).state = PersonState.DEAD ∨
        (c.people idx).was_detected = true ∨ (c.people idx).queued_for_testing = true)
    · simpa [HealthcareSystem.queue_for_testing, hcond] using h
    · simpa [HealthcareSystem.queue_for_testing, hcond, upd_person, hj] using h

theorem within_reach_mono (c : Context) (s : Nat) (d : Nat) (j : Nat)
    (h : within_reach c s d j) : within_reach c s (d + 1) j :=
  Or.inl h

theorem trace_round_spec (c0 : Context) (s : Nat) (d : Nat) :
    ∀ (contacts acc : List Int) (c : Context),
      (∀ j, (c.people j).infector = (c0.people j).infector ∧
            (c.people j).infectees = (c0.people j).infectees) →
      (∀ x ∈ contacts, 0 ≤ x → within_reach c0 s d x.toNat) →
      (∀ x ∈ acc, 0 ≤ x → within_reach c0 s (d + 1) x.toNat) →
      (∀ j, ((contacts.foldl trace_queue_step (acc, c)).2.people j).infector =
              (c0.people j).infector ∧
            ((contacts.foldl trace_queue_step (acc, c)).2.people j).infectees =
              (c0.people j).infectees) ∧
      (∀ x ∈ (contacts.foldl trace_queue_step (acc, c)).1, 0 ≤ x →
        within_reach c0 s (d + 1) x.toNat) ∧
      (∀ j, ((contacts.foldl trace_queue_step (acc, c)).2.people j).queued_for_testing = true →
        (c.people j).queued_for_testing = true ∨ within_reach c0 s d j) := by
  intro contacts
  induction contacts with
  | nil =>
    intro acc c hnbr hcon hacc
    exact ⟨hnbr, hacc, fun j hj => Or.inl hj⟩
  | cons x rest ih =>
    intro acc c hnbr hcon hacc
    simp only [List.foldl_cons]
    by_cases hx : x < 0
    · have hstep : trace_queue_step (acc, c) x = (acc, c) := by
        simp [trace_queue_step, hx]
      rw [hstep]
      exact ih acc c hnbr (fun y hy => hcon y (List.mem_cons_of_mem x hy)) hacc
    · push_neg at hx
      by_cases hok : (HealthcareSystem.queue_for_testing c x.toNat).1 = true
      · have hstep : trace_queue_step (acc, c) x =
            (acc ++ ((HealthcareSystem.queue_for_testing c x.toNat).2.people x.toNat).infector ::
              ((HealthcareSystem.queue_for_testing c x.toNat).2.people x.toNat).infectees.map
                (fun n => (n : Int)),
             (HealthcareSystem.queue_for_testing c x.toNat).2) := by
          simp [trace_queue_step, not_lt.mpr hx, hok]
        rw [hstep]
        have hxreach : within_reach c0 s d x.toNat :=
          hcon x (List.mem_cons_self x rest) hx
        have hnbr2 : ∀ j,
            ((HealthcareSystem.queue_for_testing c x.toNat).2.people j).infector =
              (c0.people j).infector ∧
            ((HealthcareSystem.queue_for_testing c x.toNat).2.people j).infectees =
              (c0.people j).infectees := by
          intro j
          exact ⟨(queue_for_testing_infector c x.toNat j).trans (hnbr j).1,
                 (queue_for_testing_infectees c x.toNat j).trans (hnbr j).2⟩
        have hacc2 : ∀ y ∈ acc ++ ((HealthcareSystem.queue_for_testing c x.toNat).2.people
              x.toNat).infector ::
              ((HealthcareSystem.queue_for_testing c x.toNat).2.people x.toNat).infectees.map
                (fun n => (n : Int)), 0 ≤ y → within_reach c0 s (d + 1) y.toNat := by
          intro y hy hy0
          rcases List.mem_append.mp hy with hyl | hyr
          · exact hacc y hyl hy0
          · refine Or.inr ⟨x.toNat, hxreach, ?_⟩
            have hyn : (y.toNat : Int) = y := Int.toNat_of_nonneg hy0
            rw [(hnbr2 x.toNat).1, (hnbr2 x.toNat).2] at hyr
            unfold contact_neighbors
            rw [hyn]
            exact hyr
        have hrec := ih _ _ hnbr2
          (fun y hy => hcon y (List.mem_cons_of_mem x hy)) hacc2
        refine ⟨hrec.1, hrec.2.1, ?_⟩
        intro j hj
        rcases hrec.2.2 j hj with hflag | hreach
        · rcases queue_for_testing_queued c x.toNat j hflag with hflag0 | hjx
          · exact Or.inl hflag0
          · subst hjx
            exact Or.inr hxreach
        · exact Or.inr hreach
      · have hok2 : (HealthcareSystem.queue_for_testing c x.toNat).1 = false := by
          simpa using hok
        have hstep : trace_queue_step (acc, c) x = (acc, c) := by
          simp [trace_queue_step, not_lt.mpr hx, hok2,
            queue_for_testing_false_unchanged c x.toNat hok2]
        rw [hstep]
        exact ih acc c hnbr (fun y hy => hcon y (List.mem_cons_of_mem x hy)) hacc

theorem trace_queue_step_random (st : List Int × Context) (x : Int) :
    (trace_queue_step st x).2.random = st.2.random := by
  by_cases hx : x < 0
  · simp [trace_queue_step, hx]
  · by_cases hok : (HealthcareSystem.queue_for_testing st.2 x.toNat).1 = true <;>
      simp [trace_queue_step, hx, hok, queue_for_testing_random]

theorem trace_round_foldl_random :
    ∀ (contacts : List Int) (st : List Int × Context),
      ((contacts.foldl trace_queue_step st).2).random = st.2.random := by
  intro contacts
  induction contacts with
  | nil => intro st; rfl
  | cons x rest ih =>
    intro st
    rw [List.foldl_cons, ih]
    exact trace_queue_step_random st x

theorem trace_round_random (contacts : List Int) (c : Context) :
    (trace_round contacts c).2.random = c.random := by
  unfold trace_round
  exact trace_round_foldl_random contacts ([], c)

theorem trace_round_spec' (c0 : Context) (s d : Nat) (contacts : List Int) (c : Context)
    (hnbr : ∀ j, (c.people j).infector = (c0.people j).infector ∧
            (c.people j).infectees = (c0.people j).infectees)
    (hcon : ∀ x ∈ contacts, 0 ≤ x → within_reach c0 s d x.toNat) :
    (∀ j, ((trace_round contacts c).2.people j).infector = (c0.people j).infector ∧
          ((trace_round contacts c).2.people j).infectees = (c0.people j).infectees) ∧
    (∀ x ∈ (trace_round contacts c).1, 0 ≤ x → within_reach c0 s (d + 1) x.toNat) ∧
    (∀ j, ((trace_round contacts c).2.people j).queued_for_testing = true →
      (c.people j).queued_for_testing = true ∨ within_reach c0 s d j) := by
  have h := trace_round_spec c0 s d contacts [] c hnbr hcon (by simp)
  simpa [trace_round] using h

theorem perform_contact_tracing_reach (c : Context) (i j : Nat)
    (h0 : (c.people j).queued_for_testing = false)
    (h1 : ((HealthcareSystem.perform_contact_tracing c i).people j).queued_for_testing = true) :
    within_reach c i 3 j := by
  have hnbr0 : ∀ k, (c.people k).infector = (c.people k).infector ∧
      (c.people k).infectees = (c.people k).infectees := fun k => ⟨rfl, rfl⟩
  have hcon0 : ∀ x ∈ contact_neighbors c i, 0 ≤ x → within_reach c i 1 x.toNat := by
    intro x hx hx0
    exact Or.inr ⟨i, rfl, by rwa [Int.toNat_of_nonneg hx0]⟩
  have s1 := trace_round_spec' c i 1 (contact_neighbors c i) c hnbr0 hcon0
  have s2 := trace_round_spec' c i 2 (trace_round (contact_neighbors c i) c).1
    (trace_round (contact_neighbors c i) c).2 s1.1 s1.2.1
  have s3 := trace_round_spec' c i 3
    (trace_round (trace_round (contact_neighbors c i) c).1
      (trace_round (contact_neighbors c i) c).2).1
    (trace_round (trace_round (contact_neighbors c i) c).1
      (trace_round (contact_neighbors c i) c).2).2 s2.1 s2.2.1
  have hperf : HealthcareSystem.perform_contact_tracing c i =
      (trace_round
        (trace_round (trace_round (contact_neighbors c i) c).1
          (trace_round (contact_neighbors c i) c).2).1
        (trace_round (trace_round (contact_neighbors c i) c).1
          (trace_round (contact_neighbors c i) c).2).2).2 := rfl
  rw [hperf] at h1
  rcases s3.2.2 j h1 with h2 | hr3
  · rcases s2.2.2 j h2 with h3 | hr2
    · rcases s1.2.2 j h3 with h4 | hr1
      · rw [h0] at h4; exact absurd h4 (by decide)
      · exact within_reach_mono c i 2 j (within_reach_mono c i 1 j hr1)
    · exact within_reach_mono c i 2 j hr2
  · exact hr3

/-- C6 counterexample: in `tracing_context` the contact-tracing intervention
carries efficiency value 50, and the pending uniform draw `9/10` would fail
a 50 % test; yet `perform_contact_tracing` queues the direct infectee
unconditionally and consumes no randomness at all.  This refutes the claimed
per-hop success probability taken from the intervention's efficiency. -/
theorem contact_tracing_deterministic_counterexample :
    tracing_context.interventions =
      [{ day := 0, name := "test-with-contact-tracing", value := 50 }] ∧
    ¬ (tracing_context.random.uniform tracing_context.random.pos < 50/100) ∧
    ((HealthcareSystem.perform_contact_tracing tracing_context 0).people 1).queued_for_testing
      = true ∧
    (HealthcareSystem.perform_contact_tracing tracing_context 0).hc.testing_queue = [1] ∧
    (HealthcareSystem.perform_contact_tracing tracing_context 0).random.pos =
      tracing_context.random.pos := by
  refine ⟨rfl, ?_, by decide, by decide, by decide⟩
  norm_num [tracing_context]

/-- C6 as amended: `perform_contact_tracing` traverses the
infector/infectee graph breadth-first up to depth 3 (every newly queued
index is within three hops of the start person) and calls
`queue_for_testing` for each reached index unconditionally: it consumes no
randomness, and the intervention's efficiency value is ignored by the
engine (there is no contact-tracing success rate). -/
theorem contact_tracing_depth_and_determinism :
    (∀ (c : Context) (i : Nat),
      (HealthcareSystem.perform_contact_tracing c i).random = c.random) ∧
    (∀ (c : Context) (d v v2 : Int),
      Context.apply_intervention c { day := d, name := "test-with-contact-tracing", value := v } =
      Context.apply_intervention c
        { day := d, name := "test-with-contact-tracing", value := v2 }) ∧
    (∀ (c : Context) (i j : Nat),
      (c.people j).queued_for_testing = false →
      ((HealthcareSystem.perform_contact_tracing c i).people j).queued_for_testing = true →
      within_reach c i 3 j) := by
  refine ⟨?_, ?_, perform_contact_tracing_reach⟩
  · intro c i
    unfold HealthcareSystem.perform_contact_tracing
    dsimp only
    rw [trace_round_random, trace_round_random, trace_round_random]
  · intro c d v v2
    simp [Context.apply_intervention]

/-- Witness for the amended C6: in `tracing_context`, person 1 (newly
queued by tracing from person 0) is within three hops of person 0. -/
theorem contact_tracing_depth_and_determinism_witness :
    within_reach tracing_context 0 3 1 :=
  contact_tracing_depth_and_determinism.2.2 tracing_context 0 1 rfl (by decide)

/-! ## The relation framework: basic lemmas -/

theorem step_rel_refl (c : Context) : StepRel c c :=
  ⟨fun _ => rfl, fun _ h => h, fun _ h => h⟩

theorem step_rel_trans {a b c : Context} (h1 : StepRel a b) (h2 : StepRel b c) :
    StepRel a c :=
  ⟨fun x => (h2.1 x).trans (h1.1 x),
   fun j h => h2.2.1 j (h1.2.1 j h),
   fun j h => h2.2.2 j (h1.2.2 j h)⟩

theorem full_rel_refl (c : Context) : FullRel c c :=
  ⟨step_rel_refl c, fun _ => ⟨le_refl _, fun _ => rfl⟩⟩

theorem full_rel_trans {a b c : Context} (h1 : FullRel a b) (h2 : FullRel b c) :
    FullRel a c := by
  refine ⟨step_rel_trans h1.1 h2.1, fun j => ?_⟩
  obtain ⟨q1a, q1b⟩ := h1.2 j
  obtain ⟨q2a, q2b⟩ := h2.2 j
  have m2 := h2.1.2.2 j
  constructor
  · generalize hga : (if (a.people j).queued_for_testing = true then 1 else 0) = ga at q1a ⊢
    generalize hgb : (if (b.people j).queued_for_testing = true then 1 else 0) = gb at q1a q2a
    generalize hgc : (if (c.people j).queued_for_testing = true then 1 else 0) = gc at q2a ⊢
    omega
  · intro hfc
    have hfb : (b.people j).queued_for_testing = false := by
      cases hb : (b.people j).queued_for_testing
      · rfl
      · rw [m2 hb] at hfc; cases hfc
    rw [q2b hfc, q1b hfb]

theorem full_rel_same {c c2 : Context} (h1 : c2.pop = c.pop) (h2 : c2.people = c.people)
    (h3 : c2.hc.testing_queue = c.hc.testing_queue) : FullRel c c2 := by
  refine ⟨⟨fun a => by rw [h1], fun j h => by rw [h2]; exact h,
    fun j h => by rw [h2]; exact h⟩, fun j => ?_⟩
  rw [h2, h3]
  exact ⟨le_refl _, fun _ => rfl⟩

theorem full_rel_upd_person (c : Context) (i : Nat) (f : Person → Person)
    (hdet : ∀ p, p.was_detected = true → (f p).was_detected = true)
    (hq : ∀ p, p.queued_for_testing = true → (f p).queued_for_testing = true) :
    FullRel c (upd_person c i f) := by
  refine ⟨⟨fun a => rfl, ?_, ?_⟩, ?_⟩
  · intro j h
    by_cases hj : j = i
    · subst hj; rw [upd_person_people_self]; exact hdet _ h
    · rw [upd_person_people_ne c i f j hj]; exact h
  · intro j h
    by_cases hj : j = i
    · subst hj; rw [upd_person_people_self]; exact hq _ h
    · rw [upd_person_people_ne c i f j hj]; exact h
  · intro j
    refine ⟨?_, fun _ => rfl⟩
    by_cases hj : j = i
    · subst hj
      rw [upd_person_people_self]
      cases hfl : (c.people j).queued_for_testing with
      | true => rw [hq _ hfl]; exact le_refl _
      | false => exact Nat.le_add_right _ _
    · rw [upd_person_people_ne c i f j hj]
      exact le_refl _

theorem full_rel_set_pop (c : Context) (p2 : Population)
    (hs : ∀ a, sird_sum p2 a = sird_sum c.pop a) : FullRel c { c with pop := p2 } :=
  ⟨⟨hs, fun _ h => h, fun _ h => h⟩, fun _ => ⟨le_refl _, fun _ => rfl⟩⟩

theorem full_rel_qft (c : Context) (idx : Nat) :
    FullRel c (HealthcareSystem.queue_for_testing c idx).2 := by
  by_cases hcond : ((c.people idx).state = PersonState.DEAD ∨
      (c.people idx).was_detected = true ∨ (c.people idx).queued_for_testing = true)
  · have h := queue_for_testing_false_unchanged c idx
      (by simp [HealthcareSystem.queue_for_testing, hcond])
    rw [h]
    exact full_rel_refl c
  · have hflag : (c.people idx).queued_for_testing = false := by
      cases h : (c.people idx).queued_for_testing
      · rfl
      · exact absurd (Or.inr (Or.inr h)) hcond
    have hshape : (HealthcareSystem.queue_for_testing c idx).2 =
        { (upd_person c idx fun q => { q with queued_for_testing := true }) with
            hc := { c.hc with testing_queue := c.hc.testing_queue ++ [idx] } } := by
      simp [HealthcareSystem.queue_for_testing, hcond, upd_person]
    rw [hshape]
    refine ⟨⟨fun a => rfl, ?_, ?_⟩, ?_⟩
    · intro j h
      by_cases hj : j = idx
      · subst hj; rw [upd_person_people_self]; exact h
      · rw [upd_person_people_ne c idx _ j hj]; exact h
    · intro j h
      by_cases hj : j = idx
      · subst hj; rw [upd_person_people_self]
      · rw [upd_person_people_ne c idx _ j hj]; exact h
    · intro j
      by_cases hj : j = idx
      · subst hj
        rw [upd_person_people_self]
        constructor
        · rw [hflag]
          simp [List.count_append]
        · intro hcontra
          simp at hcontra
      · rw [upd_person_people_ne c idx _ j hj]
        have hcnt : (c.hc.testing_queue ++ [idx]).count j = c.hc.testing_queue.count j := by
          simp [List.count_append, List.count_cons, hj]
        exact ⟨by rw [hcnt], fun _ => by rw [hcnt]⟩

theorem run_list_rel {α : Type} (R : Context → Context → Prop)
    (hrefl : ∀ c, R c c) (htrans : ∀ {a b c : Context}, R a b → R b c → R a c)
    (f : α → Context → Option Context)
    (hf : ∀ x c c2, f x c = some c2 → R c c2) :
    ∀ (l : List α) (c c2 : Context), run_list f l c = some c2 → R c c2 := by
  intro l
  induction l with
  | nil =>
    intro c c2 h
    simp only [run_list, Option.some.injEq] at h
    exact h ▸ hrefl c
  | cons x xs ih =>
    intro c c2 h
    simp only [run_list] at h
    cases hfx : f x c with
    | none => rw [hfx] at h; simp at h
    | some cmid =>
      rw [hfx] at h
      simp only [Option.some_bind] at h
      exact htrans (hf x c cmid hfx) (ih cmid c2 h)

theorem sird_sum_infect (p : Population) (a x : Nat) :
    sird_sum (p.infect a) x = sird_sum p x := by
  unfold sird_sum Population.infect bump
  by_cases h : x = a <;> simp [h] <;> ring

theorem sird_sum_recover (p : Population) (a : Nat) (wd : Bool) (x : Nat) :
    sird_sum (p.recover a wd) x = sird_sum p x := by
  unfold sird_sum Population.recover bump
  by_cases h : x = a <;> simp [h] <;> ring

theorem sird_sum_die (p : Population) (a : Nat) (wd : Bool) (x : Nat) :
    sird_sum (p.die a wd) x = sird_sum p x := by
  unfold sird_sum Population.die bump
  by_cases h : x = a <;> simp [h] <;> ring

theorem sird_sum_detect (p : Population) (a x : Nat) :
    sird_sum (p.detect a) x = sird_sum p x := rfl

theorem sird_sum_hospitalize (p : Population) (a x : Nat) :
    sird_sum (p.hospitalize a) x = sird_sum p x := rfl

theorem sird_sum_release (p : Population) (a x : Nat) :
    sird_sum (p.release_from_hospital a) x = sird_sum p x := rfl

theorem full_rel_of_parts {c c2 : Context}
    (hpop : ∀ a, sird_sum c2.pop a = sird_sum c.pop a)
    (hdet : ∀ j, (c.people j).was_detected = true → (c2.people j).was_detected = true)
    (hq : ∀ j, (c.people j).queued_for_testing = true → (c2.people j).queued_for_testing = true)
    (hqueue : c2.hc.testing_queue = c.hc.testing_queue) : FullRel c c2 := by
  refine ⟨⟨hpop, hdet, hq⟩, fun j => ?_⟩
  rw [hqueue]
  constructor
  · cases hfl : (c.people j).queued_for_testing with
    | true => rw [hq j hfl]
    | false => exact Nat.le_add_right _ _
  · intro _; rfl

theorem infect_hc (c : Context) (i : Nat) (src : Option Nat) :
    (Person.infect c i src).hc = c.hc := by
  cases src <;> rfl

theorem infect_pop (c : Context) (i : Nat) (src : Option Nat) :
    (Person.infect c i src).pop = c.pop.infect ((c.people i).age) := by
  cases src with
  | none =>
    simp [Person.infect, upd_person, Disease.get_incubation_days, RandomPool.draw_lognormal]
  | some s =>
    rcases eq_or_ne i s with hs | hs
    · subst hs
      simp [Person.infect, upd_person, Disease.get_incubation_days,
        RandomPool.draw_lognormal]
    · simp [Person.infect, upd_person, Disease.get_incubation_days,
        RandomPool.draw_lognormal, hs, Ne.symm hs]

theorem infect_people_flags (c : Context) (i : Nat) (src : Option Nat) (j : Nat) :
    ((Person.infect c i src).people j).was_detected = (c.people j).was_detected ∧
    ((Person.infect c i src).people j).queued_for_testing =
      (c.people j).queued_for_testing := by
  cases src with
  | none =>
    by_cases hj : j = i <;>
      simp [Person.infect, upd_person, Disease.get_incubation_days,
        RandomPool.draw_lognormal, hj]
  | some s =>
    rcases eq_or_ne j i with hj | hj
    · subst hj
      rcases eq_or_ne j s with hs | hs
      · subst hs
        simp [Person.infect, upd_person, Disease.get_incubation_days,
          RandomPool.draw_lognormal]
      · simp [Person.infect, upd_person, Disease.get_incubation_days,
          RandomPool.draw_lognormal, hs, Ne.symm hs]
    · rcases eq_or_ne j s with hs | hs
      · subst hs
        simp [Person.infect, upd_person, Disease.get_incubation_days,
          RandomPool.draw_lognormal, hj, Ne.symm hj]
      · simp [Person.infect, upd_person, Disease.get_incubation_days,
          RandomPool.draw_lognormal, hj, Ne.symm hj, hs, Ne.symm hs]

theorem full_rel_infect (c : Context) (i : Nat) (src : Option Nat) :
    FullRel c (Person.infect c i src) := by
  refine full_rel_of_parts ?_ ?_ ?_ ?_
  · intro a; rw [infect_pop]; exact sird_sum_infect _ _ _
  · intro j h; rw [(infect_people_flags c i src j).1]; exact h
  · intro j h; rw [(infect_people_flags c i src j).2]; exact h
  · rw [infect_hc]

theorem detect_pop (c : Context) (i : Nat) :
    (Person.detect c i).pop = c.pop.detect ((c.people i).age) := by
  simp [Person.detect, upd_person]

theorem detect_people_flags (c : Context) (i j : Nat) :
    ((Person.detect c i).people j).queued_for_testing = (c.people j).queued_for_testing ∧
    ((c.people j).was_detected = true → ((Person.detect c i).people j).was_detected = true) := by
  by_cases hj : j = i <;> simp [Person.detect, upd_person, hj]

theorem full_rel_detect (c : Context) (i : Nat) : FullRel c (Person.detect c i) := by
  refine full_rel_of_parts ?_ ?_ ?_ ?_
  · intro a; rw [detect_pop]; exact sird_sum_detect _ _ _
  · intro j h; exact (detect_people_flags c i j).2 h
  · intro j h; rw [(detect_people_flags c i j).1]; exact h
  · rw [detect_hc]

theorem recover_pop (c : Context) (i : Nat) :
    (Person.recover c i).pop =
      c.pop.recover ((c.people i).age) ((c.people i).was_detected) := by
  simp [Person.recover, upd_person]

theorem recover_hc (c : Context) (i : Nat) : (Person.recover c i).hc = c.hc := rfl

theorem recover_people_flags (c : Context) (i j : Nat) :
    ((Person.recover c i).people j).was_detected = (c.people j).was_detected ∧
    ((Person.recover c i).people j).queued_for_testing =
      (c.people j).queued_for_testing := by
  by_cases hj : j = i <;> simp [Person.recover, upd_person, hj]

theorem full_rel_recover (c : Context) (i : Nat) : FullRel c (Person.recover c i) := by
  refine full_rel_of_parts ?_ ?_ ?_ ?_
  · intro a; rw [recover_pop]; exact sird_sum_recover _ _ _ _
  · intro j h; rw [(recover_people_flags c i j).1]; exact h
  · intro j h; rw [(recover_people_flags c i j).2]; exact h
  · rw [recover_hc]

theorem die_pop (c : Context) (i : Nat) :
    (Person.die c i).pop = c.pop.die ((c.people i).age) ((c.people i).was_detected) := by
  simp [Person.die, upd_person]

theorem die_hc (c : Context) (i : Nat) : (Person.die c i).hc = c.hc := rfl

theorem die_people_flags (c : Context) (i j : Nat) :
    ((Person.die c i).people j).was_detected = (c.people j).was_detected ∧
    ((Person.die c i).people j).queued_for_testing = (c.people j).queued_for_testing := by
  by_cases hj : j = i <;> simp [Person.die, upd_person, hj]

theorem full_rel_die (c : Context) (i : Nat) : FullRel c (Person.die c i) := by
  refine full_rel_of_parts ?_ ?_ ?_ ?_
  · intro a; rw [die_pop]; exact sird_sum_die _ _ _ _
  · intro j h; rw [(die_people_flags c i j).1]; exact h
  · intro j h; rw [(die_people_flags c i j).2]; exact h
  · rw [die_hc]

theorem full_rel_set_random (c : Context) (r : RandomPool) :
    FullRel c { c with random := r } := full_rel_same rfl rfl rfl

theorem get_symptom_severity_ctx (c : Context) (i : Nat) :
    (Disease.get_symptom_severity c i).2 = { c with random := (c.random.get).2 } := rfl

theorem full_rel_expose (c : Context) (i s2 : Nat) (bc : Bool × Context)
    (h : Person.expose c i s2 = some bc) : FullRel c bc.2 := by
  unfold Person.expose at h
  dsimp only at h
  split_ifs at h with h1
  · have hbc : (false, c) = bc := Option.some.inj h
    rw [← hbc]
    exact full_rel_refl c
  · unfold Disease.did_infect at h
    cases hgsi : c.disease.get_source_infectiousness (c.people s2) with
    | none => rw [hgsi] at h; simp at h
    | some ch =>
      rw [hgsi] at h
      simp only [Option.map_some', Option.some.injEq] at h
      rw [← h]
      by_cases hb : (c.random.chance ch).1 = true
      · simp only [hb, if_true]
        exact full_rel_trans (full_rel_set_random c _) (full_rel_infect _ i (some s2))
      · simp only [hb, if_false]
        exact full_rel_set_random c _

theorem full_rel_expose_loop (i : Nat) :
    ∀ (n : Nat) (c c2 : Context), Person.expose_loop i n c = some c2 → FullRel c c2 := by
  intro n
  induction n with
  | zero =>
    intro c c2 h
    simp only [Person.expose_loop, Option.some.injEq] at h
    exact h ▸ full_rel_refl c
  | succ k ih =>
    intro c c2 h
    unfold Person.expose_loop at h
    dsimp only at h
    split_ifs at h with hrange
    · rcases Option.bind_eq_some.mp h with ⟨bc, hbc, hf⟩
      have hrel1 := full_rel_expose _ _ _ _ hbc
      by_cases hb : bc.1 = true
      · rw [if_pos hb] at hf
        refine full_rel_trans (full_rel_set_random c _) (full_rel_trans hrel1
          (full_rel_trans ?_ (ih _ _ hf)))
        exact full_rel_upd_person _ _ _ (by intro p hp; exact hp) (by intro p hp; exact hp)
      · rw [if_neg hb] at hf
        exact full_rel_trans (full_rel_set_random c _) (full_rel_trans hrel1 (ih _ _ hf))

theorem full_rel_expose_others (c : Context) (i : Nat) (nr : Int) (c2 : Context)
    (h : Person.expose_others c i nr = some c2) : FullRel c c2 := by
  unfold Person.expose_others at h
  dsimp only at h
  refine full_rel_trans ?_ (full_rel_expose_loop i _ _ _ h)
  exact full_rel_upd_person _ _ _ (by intro p hp; exact hp) (by intro p hp; exact hp)

theorem full_rel_people_exposed (c : Context) (i : Nat) (pc : Int × Context)
    (h : Disease.people_exposed c i = some pc) : FullRel c pc.2 := by
  unfold Disease.people_exposed at h
  dsimp only at h
  by_cases h1 : (c.people i).was_detected = true
  · rw [if_pos h1] at h
    have := Option.some.inj h
    rw [← this]
    exact full_rel_refl c
  · rw [if_neg h1] at h
    cases hgsi : c.disease.get_source_infectiousness (c.people i) with
    | none => rw [hgsi] at h; simp at h
    | some inf =>
      rw [hgsi] at h
      simp only [Option.some_bind] at h
      split_ifs at h <;>
        first
          | (have hinj := Option.some.inj h; rw [← hinj]; exact full_rel_refl c)
          | (have hinj := Option.some.inj h; rw [← hinj]; exact full_rel_set_random c _)
          | (simp at h)

theorem full_rel_seek_testing (c : Context) (i : Nat) (c2 : Context)
    (h : HealthcareSystem.seek_testing c i = some c2) : FullRel c c2 := by
  unfold HealthcareSystem.seek_testing at h
  dsimp only at h
  split_ifs at h <;>
    first
      | (have hinj := Option.some.inj h; rw [← hinj]; exact full_rel_qft _ _)
      | (have hinj := Option.some.inj h; rw [← hinj]
         exact full_rel_trans (full_rel_set_random c _) (full_rel_qft _ _))
      | (have hinj := Option.some.inj h; rw [← hinj]; exact full_rel_set_random c _)
      | (simp at h)

theorem full_rel_become_ill (c : Context) (i : Nat) (c2 : Context)
    (h : Person.become_ill c i = some c2) : FullRel c c2 := by
  have hpre : ∀ (cx : Context),
      FullRel cx
        (upd_person
          (upd_person (Disease.get_symptom_severity
            (upd_person cx i fun p => { p with state := PersonState.ILLNESS }) i).2 i
            (fun p => { p with symptom_severity :=
              (Disease.get_symptom_severity
                (upd_person cx i fun p => { p with state := PersonState.ILLNESS }) i).1 }))
          i (fun p => { p with days_left := Disease.get_illness_days })) := by
    intro cx
    have s1 : FullRel cx
        (upd_person cx i fun p => { p with state := PersonState.ILLNESS }) :=
      full_rel_upd_person _ _ _ (by intro p hp; exact hp) (by intro p hp; exact hp)
    have s2 : FullRel cx
        (Disease.get_symptom_severity
          (upd_person cx i fun p => { p with state := PersonState.ILLNESS }) i).2 := by
      rw [get_symptom_severity_ctx]
      exact full_rel_trans s1 (full_rel_set_random _ _)
    have s3 : FullRel cx
        (upd_person (Disease.get_symptom_severity
            (upd_person cx i fun p => { p with state := PersonState.ILLNESS }) i).2 i
          (fun p => { p with symptom_severity :=
            (Disease.get_symptom_severity
              (upd_person cx i fun p => { p with state := PersonState.ILLNESS }) i).1 })) :=
      full_rel_trans s2
        (full_rel_upd_person _ _ _ (by intro p hp; exact hp) (by intro p hp; exact hp))
    exact full_rel_trans s3
      (full_rel_upd_person _ _ _ (by intro p hp; exact hp) (by intro p hp; exact hp))
  unfold Person.become_ill at h
  dsimp only at h
  split_ifs at h with h1 h2
  · exact full_rel_trans (hpre c) (full_rel_seek_testing _ _ _ h)
  · have := Option.some.inj h
    rw [← this]
    exact hpre c
  · have := Option.some.inj h
    rw [← this]
    exact hpre c

theorem full_rel_set_hc (c : Context) (h2 : HealthcareSystem)
    (hq : h2.testing_queue = c.hc.testing_queue) : FullRel c { c with hc := h2 } :=
  full_rel_same rfl rfl hq

theorem to_icu_queue (h : HealthcareSystem) :
    (h.to_icu).2.testing_queue = h.testing_queue := by
  unfold HealthcareSystem.to_icu
  split_ifs <;> rfl

theorem hospitalize_hc_queue (h : HealthcareSystem) :
    (h.hospitalize).2.testing_queue = h.testing_queue := by
  unfold HealthcareSystem.hospitalize
  split_ifs <;> rfl

theorem release_queue (h h2 : HealthcareSystem) (hr : h.release = some h2) :
    h2.testing_queue = h.testing_queue := by
  unfold HealthcareSystem.release at hr
  dsimp only at hr
  split_ifs at hr
  rw [← Option.some.inj hr]

theorem release_icu_queue (h h2 : HealthcareSystem) (hr : h.release_from_icu = some h2) :
    h2.testing_queue = h.testing_queue := by
  unfold HealthcareSystem.release_from_icu at hr
  dsimp only at hr
  split_ifs at hr
  rw [← Option.some.inj hr]

theorem full_rel_dies_ctx (c : Context) (icu care : Bool) :
    FullRel c (Disease.dies_in_hospital c icu care).2 :=
  full_rel_set_random c _

theorem full_rel_hospitalize_detected (c : Context) (i : Nat)
    (hd : (c.people i).was_detected = true) : FullRel c (Person.hospitalize c i) := by
  unfold Person.hospitalize
  dsimp only
  rw [if_pos hd]
  by_cases hsev : (c.people i).symptom_severity = SymptomSeverity.CRITICAL
  · rw [if_pos hsev]
    by_cases hok : (c.hc.to_icu).1 = true
    · rw [if_pos hok]
      refine full_rel_trans ?_ (full_rel_set_pop _ _ (fun a => sird_sum_hospitalize _ _ _))
      refine full_rel_trans (full_rel_set_hc c _ (to_icu_queue c.hc)) ?_
      exact full_rel_upd_person _ _ _ (by intro p hp; exact hp) (by intro p hp; exact hp)
    · rw [if_neg hok]
      exact full_rel_trans (full_rel_set_hc c _ (to_icu_queue c.hc)) (full_rel_die _ i)
  · rw [if_neg hsev]
    by_cases hok : (c.hc.hospitalize).1 = true
    · rw [if_pos hok]
      refine full_rel_trans ?_ (full_rel_set_pop _ _ (fun a => sird_sum_hospitalize _ _ _))
      refine full_rel_trans (full_rel_set_hc c _ (hospitalize_hc_queue c.hc)) ?_
      exact full_rel_upd_person _ _ _ (by intro p hp; exact hp) (by intro p hp; exact hp)
    · rw [if_neg hok]
      have hmid : FullRel c
          (Disease.dies_in_hospital { c with hc := (c.hc.hospitalize).2 } false false).2 :=
        full_rel_trans (full_rel_set_hc c _ (hospitalize_hc_queue c.hc))
          (full_rel_dies_ctx _ false false)
      by_cases hdth :
          (Disease.dies_in_hospital { c with hc := (c.hc.hospitalize).2 } false false).1 = true
      · rw [if_pos hdth]
        exact full_rel_trans hmid (full_rel_die _ i)
      · rw [if_neg hdth]
        exact full_rel_trans hmid (full_rel_recover _ i)

theorem full_rel_hospitalize (c : Context) (i : Nat) : FullRel c (Person.hospitalize c i) := by
  by_cases hd : (c.people i).was_detected = true
  · exact full_rel_hospitalize_detected c i hd
  · have hdet2 : ((Person.detect c i).people i).was_detected = true := by
      simp [Person.detect, upd_person]
    have hshape : Person.hospitalize c i = Person.hospitalize (Person.detect c i) i := by
      conv_lhs => unfold Person.hospitalize
      conv_rhs => unfold Person.hospitalize
      dsimp only
      rw [if_neg hd, if_pos hdet2]
    rw [hshape]
    exact full_rel_trans (full_rel_detect c i) (full_rel_hospitalize_detected _ i hdet2)

theorem full_rel_release_from_hospital (c : Context) (i : Nat) (c2 : Context)
    (h : Person.release_from_hospital c i = some c2) : FullRel c c2 := by
  unfold Person.release_from_hospital at h
  dsimp only at h
  have hrel1 : FullRel c { c with pop := c.pop.release_from_hospital ((c.people i).age) } :=
    full_rel_set_pop _ _ (fun a => sird_sum_release _ _ _)
  split_ifs at h with hstate hdth hdth2
  · cases hricu : (Disease.dies_in_hospital
        { c with pop := c.pop.release_from_hospital ((c.people i).age) }
        true true).2.hc.release_from_icu with
    | none => rw [hricu] at h; simp at h
    | some h2 =>
      rw [hricu] at h
      simp only [Option.map_some', Option.some.injEq] at h
      rw [← h]
      exact full_rel_trans
        (full_rel_trans (full_rel_trans hrel1 (full_rel_dies_ctx _ true true))
          (full_rel_set_hc _ _ (release_icu_queue _ _ hricu)))
        (full_rel_die _ i)
  · cases hricu : (Disease.dies_in_hospital
        { c with pop := c.pop.release_from_hospital ((c.people i).age) }
        true true).2.hc.release_from_icu with
    | none => rw [hricu] at h; simp at h
    | some h2 =>
      rw [hricu] at h
      simp only [Option.map_some', Option.some.injEq] at h
      rw [← h]
      exact full_rel_trans
        (full_rel_trans (full_rel_trans hrel1 (full_rel_dies_ctx _ true true))
          (full_rel_set_hc _ _ (release_icu_queue _ _ hricu)))
        (full_rel_recover _ i)
  · cases hrw : (Disease.dies_in_hospital
        { c with pop := c.pop.release_from_hospital ((c.people i).age) }
        false true).2.hc.release with
    | none => rw [hrw] at h; simp at h
    | some h2 =>
      rw [hrw] at h
      simp only [Option.map_some', Option.some.injEq] at h
      rw [← h]
      exact full_rel_trans
        (full_rel_trans (full_rel_trans hrel1 (full_rel_dies_ctx _ false true))
          (full_rel_set_hc _ _ (release_queue _ _ hrw)))
        (full_rel_die _ i)
  · cases hrw : (Disease.dies_in_hospital
        { c with pop := c.pop.release_from_hospital ((c.people i).age) }
        false true).2.hc.release with
    | none => rw [hrw] at h; simp at h
    | some h2 =>
      rw [hrw] at h
      simp only [Option.map_some', Option.some.injEq] at h
      rw [← h]
      exact full_rel_trans
        (full_rel_trans (full_rel_trans hrel1 (full_rel_dies_ctx _ false true))
          (full_rel_set_hc _ _ (release_queue _ _ hrw)))
        (full_rel_recover _ i)

theorem full_rel_advance (c : Context) (i : Nat) (c2 : Context)
    (h : Person.advance c i = some c2) : FullRel c c2 := by
  unfold Person.advance at h
  dsimp only at h
  have hrel0 : FullRel c (upd_person c i fun p => { p with other_people_exposed_today := 0 }) :=
    full_rel_upd_person _ _ _ (by intro p hp; exact hp) (by intro p hp; exact hp)
  refine full_rel_trans hrel0 ?_
  set c0 : Context := upd_person c i fun p => { p with other_people_exposed_today := 0 }
    with hc0
  split_ifs at h with hst1 hst2 hst3 hdays
  · rcases Option.bind_eq_some.mp h with ⟨pc, hpc, h2⟩
    have r1 := full_rel_people_exposed c0 i pc hpc
    rcases Option.bind_eq_some.mp h2 with ⟨cmid, hmid, h3⟩
    have r2 : FullRel pc.2 cmid := by
      by_cases hne : pc.1 ≠ 0
      · rw [if_pos hne] at hmid
        exact full_rel_expose_others _ _ _ _ hmid
      · rw [if_neg hne] at hmid
        exact (Option.some.inj hmid) ▸ full_rel_refl _
    have r3 : FullRel cmid c2 := by
      by_cases hdl : ((upd_person cmid i fun p =>
          { p with days_left := p.days_left - 1 }).people i).days_left = 0
      · rw [if_pos hdl] at h3
        refine full_rel_trans ?_ (full_rel_become_ill _ _ _ h3)
        exact full_rel_upd_person _ _ _ (by intro p hp; exact hp) (by intro p hp; exact hp)
      · rw [if_neg hdl] at h3
        exact (Option.some.inj h3) ▸
          full_rel_upd_person _ _ _ (by intro p hp; exact hp) (by intro p hp; exact hp)
    exact full_rel_trans r1 (full_rel_trans r2 r3)
  · rcases Option.bind_eq_some.mp h with ⟨pc, hpc, h2⟩
    have r1 := full_rel_people_exposed c0 i pc hpc
    rcases Option.bind_eq_some.mp h2 with ⟨cmid, hmid, h3⟩
    have r2 : FullRel pc.2 cmid := by
      by_cases hne : pc.1 ≠ 0
      · rw [if_pos hne] at hmid
        exact full_rel_expose_others _ _ _ _ hmid
      · rw [if_neg hne] at hmid
        exact (Option.some.inj hmid) ▸ full_rel_refl _
    have hupd : FullRel cmid (upd_person cmid i fun p =>
        { p with day_of_illness := p.day_of_illness + 1, days_left := p.days_left - 1 }) :=
      full_rel_upd_person _ _ _ (by intro p hp; exact hp) (by intro p hp; exact hp)
    have r3 : FullRel cmid c2 := by
      split_ifs at h3 with hdl hsev
      · exact full_rel_trans hupd ((Option.some.inj h3) ▸ full_rel_hospitalize _ i)
      · exact full_rel_trans hupd ((Option.some.inj h3) ▸ full_rel_recover _ i)
      · exact (Option.some.inj h3) ▸ hupd
    exact full_rel_trans r1 (full_rel_trans r2 r3)
  · have hupd : FullRel c0 (upd_person c0 i fun p => { p with days_left := p.days_left - 1 }) :=
      full_rel_upd_person _ _ _ (by intro p hp; exact hp) (by intro p hp; exact hp)
    exact full_rel_trans hupd (full_rel_release_from_hospital _ i _ h)
  · exact (Option.some.inj h) ▸
      full_rel_upd_person _ _ _ (by intro p hp; exact hp) (by intro p hp; exact hp)
  · exact (Option.some.inj h) ▸ full_rel_refl c0

theorem full_rel_person_step (i : Nat) (c c2 : Context) (h : person_step i c = some c2) :
    FullRel c c2 := by
  unfold person_step at h
  split_ifs at h with hinf
  · exact (Option.some.inj h) ▸ full_rel_refl c
  · rcases Option.map_eq_some'.mp h with ⟨c1, hadv, heq⟩
    have r1 := full_rel_advance c i c1 hadv
    rw [← heq]
    dsimp only
    split_ifs with hstate <;> exact full_rel_trans r1 (full_rel_same rfl rfl rfl)

theorem full_rel_trace_queue_step (st : List Int × Context) (x : Int) :
    FullRel st.2 (trace_queue_step st x).2 := by
  by_cases hx : x < 0
  · simp only [trace_queue_step, if_pos hx]
    exact full_rel_refl _
  · by_cases hok : (HealthcareSystem.queue_for_testing st.2 x.toNat).1 = true
    · simp only [trace_queue_step, if_neg hx, if_pos hok]
      exact full_rel_qft _ _
    · simp only [trace_queue_step, if_neg hx, if_neg hok]
      exact full_rel_qft _ _

theorem full_rel_trace_foldl :
    ∀ (contacts : List Int) (st : List Int × Context),
      FullRel st.2 ((contacts.foldl trace_queue_step st).2) := by
  intro contacts
  induction contacts with
  | nil => intro st; exact full_rel_refl _
  | cons x rest ih =>
    intro st
    rw [List.foldl_cons]
    exact full_rel_trans (full_rel_trace_queue_step st x) (ih (trace_queue_step st x))

theorem full_rel_trace_round (contacts : List Int) (c : Context) :
    FullRel c (trace_round contacts c).2 := by
  unfold trace_round
  exact full_rel_trace_foldl contacts ([], c)

theorem full_rel_perform_tracing (c : Context) (i : Nat) :
    FullRel c (HealthcareSystem.perform_contact_tracing c i) := by
  unfold HealthcareSystem.perform_contact_tracing
  dsimp only
  exact full_rel_trans (full_rel_trace_round _ _)
    (full_rel_trans (full_rel_trace_round _ _) (full_rel_trace_round _ _))

theorem full_rel_hc_test_one (idx : Nat) (c c2 : Context) (h : hc_test_one idx c = some c2) :
    FullRel c c2 := by
  unfold hc_test_one at h
  dsimp only at h
  split_ifs at h with hflag hskip hmode
  · rw [← Option.some.inj h]
    exact full_rel_upd_person _ _ _ (by intro p hp; exact hp) (by intro p hp; rfl)
  · rcases Option.map_eq_some'.mp h with ⟨det, hdet, heq⟩
    rw [← heq]
    have hupd : FullRel c (upd_person c idx fun q => { q with queued_for_testing := true }) :=
      full_rel_upd_person _ _ _ (by intro p hp; exact hp) (by intro p hp; rfl)
    by_cases hdet2 : det = true
    · rw [if_pos hdet2]
      exact full_rel_trans hupd
        (full_rel_trans (full_rel_detect _ idx) (full_rel_perform_tracing _ idx))
    · rw [if_neg hdet2]
      exact hupd
  · rcases Option.map_eq_some'.mp h with ⟨det, hdet, heq⟩
    rw [← heq]
    have hupd : FullRel c (upd_person c idx fun q => { q with queued_for_testing := true }) :=
      full_rel_upd_person _ _ _ (by intro p hp; exact hp) (by intro p hp; rfl)
    by_cases hdet2 : det = true
    · rw [if_pos hdet2]
      exact full_rel_trans hupd (full_rel_detect _ idx)
    · rw [if_neg hdet2]
      exact hupd

theorem step_rel_hc_iterate (c c2 : Context) (h : HealthcareSystem.iterate c = some c2) :
    StepRel c c2 := by
  unfold HealthcareSystem.iterate at h
  dsimp only at h
  have h1 : StepRel c { c with hc := { c.hc with
      tests_run_per_day := c.hc.testing_queue.length, testing_queue := [] } } :=
    ⟨fun _ => rfl, fun _ hh => hh, fun _ hh => hh⟩
  have h2 := run_list_rel FullRel full_rel_refl
    (fun {a b c} ha hb => full_rel_trans ha hb) hc_test_one full_rel_hc_test_one
    c.hc.testing_queue _ c2 h
  exact step_rel_trans h1 h2.1

theorem full_rel_import_loop :
    ∀ (n : Nat) (c c2 : Context), import_infections_loop n c = some c2 → FullRel c c2 := by
  intro n
  induction n with
  | zero =>
    intro c c2 h
    simp only [import_infections_loop, Option.some.injEq] at h
    exact h ▸ full_rel_refl c
  | succ k ih =>
    intro c c2 h
    unfold import_infections_loop at h
    dsimp only at h
    split_ifs at h with hr
    exact full_rel_trans (full_rel_set_random c _)
      (full_rel_trans (full_rel_infect _ _ none) (ih _ _ h))

theorem full_rel_apply_intervention (c : Context) (iv : Intervention) (c2 : Context)
    (h : Context.apply_intervention c iv = some c2) : FullRel c c2 := by
  unfold Context.apply_intervention at h
  split_ifs at h with h1 h2 h3 h4 h5 h6 h7 h8
  · exact (Option.some.inj h) ▸ full_rel_same rfl rfl rfl
  · exact (Option.some.inj h) ▸ full_rel_same rfl rfl rfl
  · exact (Option.some.inj h) ▸ full_rel_same rfl rfl rfl
  · exact (Option.some.inj h) ▸ full_rel_same rfl rfl rfl
  · exact (Option.some.inj h) ▸ full_rel_same rfl rfl rfl
  · exact full_rel_import_loop _ _ _ h
  · exact (Option.some.inj h) ▸ full_rel_set_pop c _ (fun _ => rfl)
  · exact (Option.some.inj h) ▸ full_rel_set_pop c _ (fun _ => rfl)

theorem step_rel_iterate (c c2 : Context) (h : Context.iterate c = some c2) :
    StepRel c c2 := by
  unfold Context.iterate at h
  rcases Option.bind_eq_some.mp h with ⟨c1, hivs, h2⟩
  rcases Option.bind_eq_some.mp h2 with ⟨c3, hhc, h3⟩
  rcases Option.map_eq_some'.mp h3 with ⟨c4, hpl, heq⟩
  have r1 : FullRel c c1 := by
    refine run_list_rel FullRel full_rel_refl
      (fun {a b c} ha hb => full_rel_trans ha hb) _ ?_ c.interventions c c1 hivs
    intro iv cc cc2 hh
    split_ifs at hh with hday
    · exact full_rel_apply_intervention cc iv cc2 hh
    · exact (Option.some.inj hh) ▸ full_rel_refl cc
  have r2 : StepRel c1 { c1 with
      total_infectors := 0, total_infections := 0, exposed_per_day := 0 } :=
    ⟨fun _ => rfl, fun _ hh => hh, fun _ hh => hh⟩
  have r3 := step_rel_hc_iterate _ _ hhc
  have r4 := run_list_rel FullRel full_rel_refl
    (fun {a b c} ha hb => full_rel_trans ha hb) person_step full_rel_person_step
    (List.range c3.n_people) c3 c4 hpl
  have r5 : StepRel c4 c2 := by
    rw [← heq]
    exact ⟨fun _ => rfl, fun _ hh => hh, fun _ hh => hh⟩
  exact step_rel_trans r1.1 (step_rel_trans r2 (step_rel_trans r3 (step_rel_trans r4.1 r5)))

/-! ## C1: per-age population conservation -/

theorem run_days_sird :
    ∀ (n : Nat) (c : Context) (s : ModelState), s ∈ (run_days n c).1 →
      ∀ a, s.susceptible a + s.infected a + s.recovered a + s.dead a = sird_sum c.pop a := by
  intro n
  induction n with
  | zero =>
    intro c s hs a
    simp [run_days] at hs
  | succ k ih =>
    intro c s hs a
    rw [run_days] at hs
    cases hh : Context.iterate c with
    | none =>
      rw [hh] at hs
      simp at hs
      subst hs
      rfl
    | some c2 =>
      rw [hh] at hs
      dsimp only at hs
      rcases hrd : run_days k c2 with ⟨rest, fin⟩
      rw [hrd] at hs
      simp at hs
      rcases hs with h1 | h2
      · subst h1
        rfl
      · have hmem : s ∈ (run_days k c2).1 := by rw [hrd]; exact h2
        rw [ih c2 s hmem a]
        exact (step_rel_iterate c c2 hh).1 a

/-- C1: at the end of every simulated day (every emitted snapshot), for every
age bucket `a`, susceptible + infected + recovered + dead equals the initial
population count `age_counts[a]`, for every configuration, intervention
schedule (import-infections included) and seed. -/
theorem population_conservation (inp : SimInputs) (s : ModelState)
    (hs : s ∈ (simulate_individuals inp).1) (a : Nat) :
    s.susceptible a + s.infected a + s.recovered a + s.dead a
      = (inp.age_counts.getD a 0 : Int) := by
  have h := run_days_sird inp.simulation_days (make_context inp) s hs a
  rw [h]
  simp [sird_sum, make_context, Population.init]

/-- Witness for C1: the day-0 snapshot of the concrete `conservation_inputs`
run conserves the age-0 bucket (2 people). -/
theorem population_conservation_witness :
    (make_context conservation_inputs).generate_state
        ∈ (simulate_individuals conservation_inputs).1 ∧
    (make_context conservation_inputs).generate_state.susceptible 0 +
      (make_context conservation_inputs).generate_state.infected 0 +
      (make_context conservation_inputs).generate_state.recovered 0 +
      (make_context conservation_inputs).generate_state.dead 0 = 2 := by
  have hmem : (make_context conservation_inputs).generate_state
      ∈ (simulate_individuals conservation_inputs).1 := by
    show (make_context conservation_inputs).generate_state
      ∈ (run_days 1 (make_context conservation_inputs)).1
    rw [run_days]
    cases hh : Context.iterate (make_context conservation_inputs) with
    | none => simp
    | some c2 =>
      rcases hrd : run_days 0 c2 with ⟨rest, fin⟩
      simp [run_days] at hrd
      simp [hrd.1]
  refine ⟨hmem, ?_⟩
  have h := population_conservation conservation_inputs _ hmem 0
  rw [h]
  decide

/-! ## C9: detected people never expose anyone again -/

theorem people_exposed_detected (c : Context) (i : Nat)
    (h : (c.people i).was_detected = true) : Disease.people_exposed c i = some (0, c) := by
  unfold Disease.people_exposed
  dsimp only
  rw [if_pos h]

theorem det_rel_refl (i : Nat) (c : Context) : DetRel i c c :=
  ⟨fun _ _ => rfl, fun _ => rfl, rfl, rfl⟩

theorem det_rel_trans {i : Nat} {c c2 c3 : Context} (h1 : DetRel i c c2)
    (h2 : DetRel i c2 c3) : DetRel i c c3 := by
  obtain ⟨a1, b1, d1, e1⟩ := h1
  obtain ⟨a2, b2, d2, e2⟩ := h2
  exact ⟨fun j hj => (a2 j hj).trans (a1 j hj),
    fun a => (b2 a).trans (b1 a), d2.trans d1, e2.trans e1⟩

theorem det_rel_same (i : Nat) (c c2 : Context) (hp : c2.people = c.people)
    (hs : ∀ a, c2.pop.susceptible a = c.pop.susceptible a) : DetRel i c c2 :=
  ⟨fun j _ => by rw [hp], hs, by rw [hp], by rw [hp]⟩

theorem det_rel_upd_self (i : Nat) (c : Context) (f : Person → Person)
    (h1 : ∀ p, (f p).other_people_infected = p.other_people_infected)
    (h2 : ∀ p, (f p).infectees = p.infectees) :
    DetRel i c (upd_person c i f) := by
  refine ⟨fun j hj => upd_person_people_ne c i f j hj, fun a => rfl, ?_, ?_⟩
  · rw [upd_person_people_self]; exact h1 _
  · rw [upd_person_people_self]; exact h2 _

theorem det_rel_set_hc (i : Nat) (c : Context) (h : HealthcareSystem) :
    DetRel i c { c with hc := h } :=
  det_rel_same i _ _ rfl (fun _ => rfl)

theorem det_rel_dies_ctx (i : Nat) (c : Context) (b1 b2 : Bool) :
    DetRel i c (Disease.dies_in_hospital c b1 b2).2 :=
  det_rel_same i _ _ rfl (fun _ => rfl)

theorem det_rel_detect (c : Context) (i : Nat) : DetRel i c (Person.detect c i) := by
  unfold Person.detect
  dsimp only
  exact det_rel_trans
    (det_rel_upd_self i c (fun p => { p with was_detected := true })
      (fun p => rfl) (fun p => rfl))
    (det_rel_same i _ _ rfl (fun a => rfl))

theorem det_rel_die (c : Context) (i : Nat) : DetRel i c (Person.die c i) := by
  unfold Person.die
  dsimp only
  exact det_rel_trans
    (det_rel_upd_self i c (fun p =>
        { p with is_infected := false, has_immunity := true, state := PersonState.DEAD })
      (fun p => rfl) (fun p => rfl))
    (det_rel_same i _ _ rfl (fun a => rfl))

theorem det_rel_recover (c : Context) (i : Nat) : DetRel i c (Person.recover c i) := by
  unfold Person.recover
  dsimp only
  exact det_rel_trans
    (det_rel_upd_self i c (fun p =>
        { p with state := PersonState.RECOVERED, is_infected := false, has_immunity := true })
      (fun p => rfl) (fun p => rfl))
    (det_rel_same i _ _ rfl (fun a => rfl))

theorem det_rel_hospitalize_detected (c : Context) (i : Nat)
    (hd : (c.people i).was_detected = true) : DetRel i c (Person.hospitalize c i) := by
  unfold Person.hospitalize
  dsimp only
  rw [if_pos hd]
  by_cases hsev : (c.people i).symptom_severity = SymptomSeverity.CRITICAL
  · rw [if_pos hsev]
    by_cases hok : (c.hc.to_icu).1 = true
    · rw [if_pos hok]
      refine ⟨fun j hj => ?_, fun a => rfl, ?_, ?_⟩
      · simp [upd_person, hj]
      · simp [upd_person]
      · simp [upd_person]
    · rw [if_neg hok]
      exact det_rel_trans (det_rel_set_hc i c _) (det_rel_die _ i)
  · rw [if_neg hsev]
    by_cases hok : (c.hc.hospitalize).1 = true
    · rw [if_pos hok]
      refine ⟨fun j hj => ?_, fun a => rfl, ?_, ?_⟩
      · simp [upd_person, hj]
      · simp [upd_person]
      · simp [upd_person]
    · rw [if_neg hok]
      have hmid : DetRel i c
          (Disease.dies_in_hospital { c with hc := (c.hc.hospitalize).2 } false false).2 :=
        det_rel_trans (det_rel_set_hc i c _) (det_rel_dies_ctx i _ false false)
      by_cases hdth :
          (Disease.dies_in_hospital { c with hc := (c.hc.hospitalize).2 } false false).1 = true
      · rw [if_pos hdth]
        exact det_rel_trans hmid (det_rel_die _ i)
      · rw [if_neg hdth]
        exact det_rel_trans hmid (det_rel_recover _ i)

theorem det_rel_hospitalize (c : Context) (i : Nat) : DetRel i c (Person.hospitalize c i) := by
  by_cases hd : (c.people i).was_detected = true
  · exact det_rel_hospitalize_detected c i hd
  · have hdet2 : ((Person.detect c i).people i).was_detected = true := by
      simp [Person.detect, upd_person]
    have hshape : Person.hospitalize c i = Person.hospitalize (Person.detect c i) i := by
      conv_lhs => unfold Person.hospitalize
      conv_rhs => unfold Person.hospitalize
      dsimp only
      rw [if_neg hd, if_pos hdet2]
    rw [hshape]
    exact det_rel_trans (det_rel_detect c i) (det_rel_hospitalize_detected _ i hdet2)

theorem det_rel_release (c : Context) (i : Nat) (c2 : Context)
    (h : Person.release_from_hospital c i = some c2) : DetRel i c c2 := by
  unfold Person.release_from_hospital at h
  dsimp only at h
  have hrel1 : DetRel i c { c with pop := c.pop.release_from_hospital ((c.people i).age) } :=
    det_rel_same i _ _ rfl (fun a => rfl)
  split_ifs at h with hstate hdth hdth2
  · cases hricu : (Disease.dies_in_hospital
        { c with pop := c.pop.release_from_hospital ((c.people i).age) }
        true true).2.hc.release_from_icu with
    | none => rw [hricu] at h; simp at h
    | some h2 =>
      rw [hricu] at h
      simp only [Option.map_some', Option.some.injEq] at h
      rw [← h]
      exact det_rel_trans
        (det_rel_trans (det_rel_trans hrel1 (det_rel_dies_ctx i _ true true))
          (det_rel_set_hc i _ _))
        (det_rel_die _ i)
  · cases hricu : (Disease.dies_in_hospital
        { c with pop := c.pop.release_from_hospital ((c.people i).age) }
        true true).2.hc.release_from_icu with
    | none => rw [hricu] at h; simp at h
    | some h2 =>
      rw [hricu] at h
      simp only [Option.map_some', Option.some.injEq] at h
      rw [← h]
      exact det_rel_trans
        (det_rel_trans (det_rel_trans hrel1 (det_rel_dies_ctx i _ true true))
          (det_rel_set_hc i _ _))
        (det_rel_recover _ i)
  · cases hrw : (Disease.dies_in_hospital
        { c with pop := c.pop.release_from_hospital ((c.people i).age) }
        false true).2.hc.release with
    | none => rw [hrw] at h; simp at h
    | some h2 =>
      rw [hrw] at h
      simp only [Option.map_some', Option.some.injEq] at h
      rw [← h]
      exact det_rel_trans
        (det_rel_trans (det_rel_trans hrel1 (det_rel_dies_ctx i _ false true))
          (det_rel_set_hc i _ _))
        (det_rel_die _ i)
  · cases hrw : (Disease.dies_in_hospital
        { c with pop := c.pop.release_from_hospital ((c.people i).age) }
        false true).2.hc.release with
    | none => rw [hrw] at h; simp at h
    | some h2 =>
      rw [hrw] at h
      simp only [Option.map_some', Option.some.injEq] at h
      rw [← h]
      exact det_rel_trans
        (det_rel_trans (det_rel_trans hrel1 (det_rel_dies_ctx i _ false true))
          (det_rel_set_hc i _ _))
        (det_rel_recover _ i)

theorem det_rel_become_ill (c : Context) (i : Nat) (h : (c.people i).was_detected = true)
    (c2 : Context) (hb : Person.become_ill c i = some c2) : DetRel i c c2 := by
  have hpre : DetRel i c
      (upd_person
        (upd_person (Disease.get_symptom_severity
          (upd_person c i fun p => { p with state := PersonState.ILLNESS }) i).2 i
          (fun p => { p with symptom_severity :=
            (Disease.get_symptom_severity
              (upd_person c i fun p => { p with state := PersonState.ILLNESS }) i).1 }))
        i (fun p => { p with days_left := Disease.get_illness_days })) := by
    have s1 : DetRel i c
        (upd_person c i fun p => { p with state := PersonState.ILLNESS }) :=
      det_rel_upd_self i c _ (fun p => rfl) (fun p => rfl)
    have s2 : DetRel i c
        (Disease.get_symptom_severity
          (upd_person c i fun p => { p with state := PersonState.ILLNESS }) i).2 := by
      rw [get_symptom_severity_ctx]
      exact det_rel_trans s1 (det_rel_same i _ _ rfl (fun a => rfl))
    have s3 : DetRel i c
        (upd_person (Disease.get_symptom_severity
            (upd_person c i fun p => { p with state := PersonState.ILLNESS }) i).2 i
          (fun p => { p with symptom_severity :=
            (Disease.get_symptom_severity
              (upd_person c i fun p => { p with state := PersonState.ILLNESS }) i).1 })) :=
      det_rel_trans s2 (det_rel_upd_self i _ _ (fun p => rfl) (fun p => rfl))
    exact det_rel_trans s3 (det_rel_upd_self i _ _ (fun p => rfl) (fun p => rfl))
  unfold Person.become_ill at hb
  dsimp only at hb
  split_ifs at hb with h1 h2
  · exfalso
    simp [upd_person, get_symptom_severity_ctx, h] at h2
  · rw [← Option.some.inj hb]
    exact hpre
  · rw [← Option.some.inj hb]
    exact hpre

theorem det_rel_advance (c : Context) (i : Nat) (h : (c.people i).was_detected = true)
    (c2 : Context) (hadv : Person.advance c i = some c2) : DetRel i c c2 := by
  unfold Person.advance at hadv
  dsimp only at hadv
  have hrel0 : DetRel i c (upd_person c i fun p => { p with other_people_exposed_today := 0 }) :=
    det_rel_upd_self i c _ (fun p => rfl) (fun p => rfl)
  refine det_rel_trans hrel0 ?_
  set c0 : Context := upd_person c i fun p => { p with other_people_exposed_today := 0 }
    with hc0
  have h0 : (c0.people i).was_detected = true := by
    rw [hc0, upd_person_people_self]
    exact h
  split_ifs at hadv with hst1 hst2 hst3 hdays
  · rcases Option.bind_eq_some.mp hadv with ⟨pc, hpc, h2⟩
    rw [people_exposed_detected c0 i h0] at hpc
    obtain rfl := Option.some.inj hpc
    rcases Option.bind_eq_some.mp h2 with ⟨cmid, hmid, h3⟩
    simp at hmid
    subst hmid
    by_cases hdl : ((upd_person c0 i fun p =>
        { p with days_left := p.days_left - 1 }).people i).days_left = 0
    · rw [if_pos hdl] at h3
      refine det_rel_trans (det_rel_upd_self i c0
          (fun p => { p with days_left := p.days_left - 1 }) (fun p => rfl) (fun p => rfl))
        (det_rel_become_ill _ i ?_ c2 h3)
      rw [upd_person_people_self]
      exact h0
    · rw [if_neg hdl] at h3
      rw [← Option.some.inj h3]
      exact det_rel_upd_self i c0 _ (fun p => rfl) (fun p => rfl)
  · rcases Option.bind_eq_some.mp hadv with ⟨pc, hpc, h2⟩
    rw [people_exposed_detected c0 i h0] at hpc
    obtain rfl := Option.some.inj hpc
    rcases Option.bind_eq_some.mp h2 with ⟨cmid, hmid, h3⟩
    simp at hmid
    subst hmid
    have hupd : DetRel i c0 (upd_person c0 i fun p =>
        { p with day_of_illness := p.day_of_illness + 1, days_left := p.days_left - 1 }) :=
      det_rel_upd_self i c0 _ (fun p => rfl) (fun p => rfl)
    split_ifs at h3 with hdl hsev
    · exact det_rel_trans hupd ((Option.some.inj h3) ▸ det_rel_hospitalize _ i)
    · exact det_rel_trans hupd ((Option.some.inj h3) ▸ det_rel_recover _ i)
    · exact (Option.some.inj h3) ▸ hupd
  · have hupd : DetRel i c0 (upd_person c0 i fun p => { p with days_left := p.days_left - 1 }) :=
      det_rel_upd_self i c0 _ (fun p => rfl) (fun p => rfl)
    exact det_rel_trans hupd (det_rel_release _ i _ hadv)
  · exact (Option.some.inj hadv) ▸ det_rel_upd_self i c0 _ (fun p => rfl) (fun p => rfl)
  · exact (Option.some.inj hadv) ▸ det_rel_refl i c0

theorem iterate_n_detected (i : Nat) :
    ∀ (n : Nat) (c c3 : Context), (c.people i).was_detected = true →
      iterate_n n c = some c3 → (c3.people i).was_detected = true := by
  intro n
  induction n with
  | zero =>
    intro c c3 h hit
    simp [iterate_n] at hit
    rw [← hit]
    exact h
  | succ k ih =>
    intro c c3 h hit
    unfold iterate_n at hit
    rcases Option.bind_eq_some.mp hit with ⟨cm, hcm, hrest⟩
    exact ih cm c3 ((step_rel_iterate c cm hcm).2.1 i h) hrest

/-- C9: a person whose `was_detected` flag is set never exposes anyone
again: `Disease.people_exposed` returns 0 for them immediately (without
consuming randomness or changing the context), their `advance` step touches
no other person's record, removes nobody from the susceptible pool and
records no new infections for them (`other_people_infected` and `infectees`
are unchanged), and — the flag never being cleared by the day loop — the
same holds on every subsequent day. -/
theorem detected_person_never_infects (c : Context) (i : Nat)
    (h : (c.people i).was_detected = true) :
    Disease.people_exposed c i = some (0, c) ∧
    (∀ c2, Person.advance c i = some c2 →
      (∀ j, j ≠ i → c2.people j = c.people j) ∧
      (∀ a, c2.pop.susceptible a = c.pop.susceptible a) ∧
      (c2.people i).other_people_infected = (c.people i).other_people_infected ∧
      (c2.people i).infectees = (c.people i).infectees) ∧
    (∀ (n : Nat) (c3 : Context), iterate_n n c = some c3 →
      (c3.people i).was_detected = true ∧ Disease.people_exposed c3 i = some (0, c3)) := by
  refine ⟨people_exposed_detected c i h,
    fun c2 hadv => det_rel_advance c i h c2 hadv, fun n c3 hit => ?_⟩
  have hf := iterate_n_detected i n c c3 h hit
  exact ⟨hf, people_exposed_detected c3 i hf⟩

/-- Witness for C9 on the concrete `detected_context`, whose person 0 is
infected, ill and detected: the flag hypothesis holds and the exposure count
is 0. -/
theorem detected_person_never_infects_witness :
    (detected_context.people 0).was_detected = true ∧
    Disease.people_exposed detected_context 0 = some (0, detected_context) := by
  have h : (detected_context.people 0).was_detected = true := rfl
  exact ⟨h, (detected_person_never_infects detected_context 0 h).1⟩

/-! ## C7: the reported r and what the tallies count -/

theorem tallies_infect (c : Context) (i : Nat) (source : Option Nat) :
    tallies (Person.infect c i source) = tallies c := by
  cases source <;> rfl

theorem tallies_people_exposed (c : Context) (i : Nat) (pc : Int × Context)
    (h : Disease.people_exposed c i = some pc) : tallies pc.2 = tallies c := by
  unfold Disease.people_exposed at h
  dsimp only at h
  split_ifs at h with hdet
  · rw [← Option.some.inj h]
  all_goals
    rcases Option.bind_eq_some.mp h with ⟨inf, hinf, hb⟩
    split_ifs at hb <;> (rw [← Option.some.inj hb]; try rfl)

theorem tallies_did_infect (c : Context) (src : Person) (bc : Bool × Context)
    (h : Disease.did_infect c src = some bc) : tallies bc.2 = tallies c := by
  unfold Disease.did_infect at h
  rcases Option.map_eq_some'.mp h with ⟨ch, hch, heq⟩
  rw [← heq]
  rfl

theorem tallies_expose (c : Context) (i s : Nat) (bc : Bool × Context)
    (h : Person.expose c i s = some bc) : tallies bc.2 = tallies c := by
  unfold Person.expose at h
  dsimp only at h
  split_ifs at h with hskip
  · rw [← Option.some.inj h]
  · rcases Option.map_eq_some'.mp h with ⟨bc2, hbc2, heq⟩
    rw [← heq]
    split_ifs with hinf
    · exact (tallies_infect _ _ _).trans (tallies_did_infect _ _ _ hbc2)
    · show tallies bc2.2 = tallies c
      exact tallies_did_infect _ _ _ hbc2

theorem tallies_expose_loop (i : Nat) :
    ∀ (n : Nat) (c c2 : Context), Person.expose_loop i n c = some c2 →
      tallies c2 = tallies c := by
  intro n
  induction n with
  | zero =>
    intro c c2 h
    simp [Person.expose_loop] at h
    rw [← h]
  | succ k ih =>
    intro c c2 h
    unfold Person.expose_loop at h
    dsimp only at h
    split_ifs at h with hrange
    rcases Option.bind_eq_some.mp h with ⟨bc, hbc, hrest⟩
    have h1 := tallies_expose _ _ _ _ hbc
    split_ifs at hrest with hsucc
    · exact ((ih _ _ hrest).trans h1)
    · exact ((ih _ _ hrest).trans h1)

theorem tallies_expose_others (c : Context) (i : Nat) (n : Int) (c2 : Context)
    (h : Person.expose_others c i n = some c2) : tallies c2 = tallies c := by
  unfold Person.expose_others at h
  dsimp only at h
  exact (tallies_expose_loop i _ _ _ h).trans rfl

theorem tallies_qft (c : Context) (j : Nat) :
    tallies (HealthcareSystem.queue_for_testing c j).2 = tallies c := by
  unfold HealthcareSystem.queue_for_testing
  dsimp only
  split_ifs <;> rfl

theorem tallies_seek_testing (c : Context) (i : Nat) (c2 : Context)
    (h : HealthcareSystem.seek_testing c i = some c2) : tallies c2 = tallies c := by
  unfold HealthcareSystem.seek_testing at h
  dsimp only at h
  split_ifs at h <;>
    (rw [← Option.some.inj h]; first | rfl | exact (tallies_qft _ _).trans rfl)

theorem tallies_become_ill (c : Context) (i : Nat) (c2 : Context)
    (h : Person.become_ill c i = some c2) : tallies c2 = tallies c := by
  unfold Person.become_ill at h
  dsimp only at h
  split_ifs at h with h1 h2
  · exact (tallies_seek_testing _ _ _ h).trans rfl
  · rw [← Option.some.inj h]
    rfl
  · rw [← Option.some.inj h]
    rfl

theorem tallies_hospitalize (c : Context) (i : Nat) :
    tallies (Person.hospitalize c i) = tallies c := by
  unfold Person.hospitalize
  dsimp only
  split_ifs <;> rfl

theorem tallies_release (c : Context) (i : Nat) (c2 : Context)
    (h : Person.release_from_hospital c i = some c2) : tallies c2 = tallies c := by
  unfold Person.release_from_hospital at h
  dsimp only at h
  split_ifs at h <;>
    (rcases Option.map_eq_some'.mp h with ⟨h2, hh2, heq⟩
     rw [← heq]
     rfl)

theorem tallies_advance (c : Context) (i : Nat) (c2 : Context)
    (h : Person.advance c i = some c2) : tallies c2 = tallies c := by
  unfold Person.advance at h
  dsimp only at h
  split_ifs at h with hst1 hst2 hst3 hdays
  · rcases Option.bind_eq_some.mp h with ⟨pc, hpc, h2⟩
    have t1 := tallies_people_exposed _ _ _ hpc
    rcases Option.bind_eq_some.mp h2 with ⟨cmid, hmid, h3⟩
    have t2 : tallies cmid = tallies pc.2 := by
      split_ifs at hmid with hne
      · exact tallies_expose_others _ _ _ _ hmid
      · rw [← Option.some.inj hmid]
    have t3 : tallies c2 = tallies cmid := by
      split_ifs at h3 with hdl
      · exact (tallies_become_ill _ _ _ h3).trans rfl
      · rw [← Option.some.inj h3]
        rfl
    exact ((t3.trans t2).trans t1).trans rfl
  · rcases Option.bind_eq_some.mp h with ⟨pc, hpc, h2⟩
    have t1 := tallies_people_exposed _ _ _ hpc
    rcases Option.bind_eq_some.mp h2 with ⟨cmid, hmid, h3⟩
    have t2 : tallies cmid = tallies pc.2 := by
      split_ifs at hmid with hne
      · exact tallies_expose_others _ _ _ _ hmid
      · rw [← Option.some.inj hmid]
    have t3 : tallies c2 = tallies cmid := by
      split_ifs at h3 with hdl hsev
      · rw [← Option.some.inj h3]
        exact (tallies_hospitalize _ _).trans rfl
      · rw [← Option.some.inj h3]
        rfl
      · rw [← Option.some.inj h3]
        rfl
    exact ((t3.trans t2).trans t1).trans rfl
  · exact (tallies_release _ _ _ h).trans rfl
  · rw [← Option.some.inj h]
    rfl
  · rw [← Option.some.inj h]
    rfl

/-- C7: the day's reported `r` is `total_infections / total_infectors` with
`r = 0` when `total_infectors = 0`; a person's advance step never changes
the two tallies itself; and the people loop adds, for each infected person,
exactly 1 infector and their `other_people_infected` count when — and only
when — their state after the advance step is `ILLNESS` (so the dead, the
recovered, the incubating and the hospitalized are not counted). -/
theorem r_counts_ill_infectors (c : Context) :
    ((c.generate_state).r =
      if c.total_infectors = 0 then 0
      else (c.total_infections : ℚ) / (c.total_infectors : ℚ)) ∧
    (∀ (i : Nat) (c1 : Context), Person.advance c i = some c1 →
      c1.total_infectors = c.total_infectors ∧
      c1.total_infections = c.total_infections) ∧
    (∀ (i : Nat) (c2 : Context), person_step i c = some c2 →
      ((c.people i).is_infected = false → c2 = c) ∧
      ((c.people i).is_infected = true → ∃ c1, Person.advance c i = some c1 ∧
        c2.total_infectors = c1.total_infectors +
          (if (c1.people i).state = PersonState.ILLNESS then 1 else 0) ∧
        c2.total_infections = c1.total_infections +
          (if (c1.people i).state = PersonState.ILLNESS
           then (c1.people i).other_people_infected else 0))) := by
  refine ⟨rfl, fun i c1 h => Prod.ext_iff.mp (tallies_advance c i c1 h), fun i c2 h => ?_⟩
  unfold person_step at h
  split_ifs at h with hinf
  · refine ⟨fun _ => (Option.some.inj h).symm, fun htrue => ?_⟩
    rw [hinf] at htrue
    cases htrue
  · refine ⟨fun hfalse => absurd hfalse hinf, fun _ => ?_⟩
    rcases Option.map_eq_some'.mp h with ⟨c1, hadv, heq⟩
    refine ⟨c1, hadv, ?_, ?_⟩ <;>
      (rw [← heq]
       dsimp only
       split_ifs with hstate <;> rfl)

/-- Witness for C7 on the concrete `severe_no_beds_context`: person 1 is not
infected, so their person step leaves the context unchanged, and with zero
recorded infectors the reported r is 0. -/
theorem r_counts_ill_infectors_witness :
    (severe_no_beds_context.people 1).is_infected = false ∧
    person_step 1 severe_no_beds_context = some severe_no_beds_context ∧
    severe_no_beds_context.generate_state.r = 0 := by
  have h := r_counts_ill_infectors severe_no_beds_context
  have hps : person_step 1 severe_no_beds_context = some severe_no_beds_context := rfl
  refine ⟨rfl, hps, ?_⟩
  rw [h.1]
  simp [severe_no_beds_context]

/-! ## C10: each person is tested at most once -/

theorem qft_flagged (c : Context) (j : Nat) (h : (c.people j).queued_for_testing = true) :
    HealthcareSystem.queue_for_testing c j = (false, c) := by
  unfold HealthcareSystem.queue_for_testing
  dsimp only
  rw [if_pos (Or.inr (Or.inr h))]

theorem hc_test_one_flag (x : Nat) (c c2 : Context) (h : hc_test_one x c = some c2) :
    (c2.people x).queued_for_testing = true := by
  have hx : (c.people x).queued_for_testing = true := by
    by_contra hb
    have hx2 : (c.people x).queued_for_testing = false := by
      cases hqv : (c.people x).queued_for_testing
      · rfl
      · exact absurd hqv hb
    unfold hc_test_one at h
    dsimp only at h
    rw [if_pos hx2] at h
    cases h
  exact (full_rel_hc_test_one x c c2 h).1.2.2 x hx

theorem full_rel_iv_phase :
    ∀ (ivs : List Intervention) (c c2 : Context),
      run_list (fun iv cc => if iv.day = cc.day then Context.apply_intervention cc iv
        else some cc) ivs c = some c2 → FullRel c c2 := by
  intro ivs c c2 h
  refine run_list_rel FullRel full_rel_refl
    (fun {a b c} ha hb => full_rel_trans ha hb) _ ?_ ivs c c2 h
  intro iv cc cc2 hh
  split_ifs at hh with hday
  · exact full_rel_apply_intervention cc iv cc2 hh
  · exact (Option.some.inj hh) ▸ full_rel_refl cc

theorem run_list_test_flags :
    ∀ (q : List Nat) (c c2 : Context), run_list hc_test_one q c = some c2 →
      ∀ j ∈ q, (c2.people j).queued_for_testing = true := by
  intro q
  induction q with
  | nil =>
    intro c c2 h j hj
    cases hj
  | cons x xs ih =>
    intro c c2 h j hj
    simp only [run_list] at h
    cases hfx : hc_test_one x c with
    | none => rw [hfx] at h; simp at h
    | some cm =>
      rw [hfx] at h
      simp only [Option.some_bind] at h
      rcases List.mem_cons.mp hj with rfl | hj2
      · have h1 := hc_test_one_flag j c cm hfx
        have hr := run_list_rel FullRel full_rel_refl
          (fun {a b c} ha hb => full_rel_trans ha hb) hc_test_one full_rel_hc_test_one
          xs cm c2 h
        exact hr.1.2.2 j h1
      · exact ih cm c2 h j hj2

theorem hc_iterate_flags (c c2 : Context) (h : HealthcareSystem.iterate c = some c2) :
    ∀ j ∈ c.hc.testing_queue, (c2.people j).queued_for_testing = true := by
  unfold HealthcareSystem.iterate at h
  dsimp only at h
  exact run_list_test_flags _ _ _ h

theorem full_rel_qinv (j : Nat) (c c2 : Context) (hr : FullRel c c2) (hi : QInv j c) :
    QInv j c2 := by
  obtain ⟨⟨_, _, hqmono⟩, hq⟩ := hr
  obtain ⟨h1, h2⟩ := hi
  obtain ⟨hle, hfr⟩ := hq j
  by_cases hf : (c.people j).queued_for_testing = true
  · have hf2 := hqmono j hf
    simp only [hf, hf2, if_pos] at hle
    refine ⟨fun hff => ?_, by omega⟩
    rw [hf2] at hff
    cases hff
  · have hf' : (c.people j).queued_for_testing = false := by
      cases hqv : (c.people j).queued_for_testing
      · rfl
      · exact absurd hqv hf
    have hc0 := h1 hf'
    rw [hf', hc0] at hle
    refine ⟨fun hff => (hfr hff).trans hc0, ?_⟩
    by_cases hf2 : (c2.people j).queued_for_testing = true
    · rw [hf2] at hle
      simp at hle
      omega
    · have hf2' : (c2.people j).queued_for_testing = false := by
        cases hqv : (c2.people j).queued_for_testing
        · rfl
        · exact absurd hqv hf2
      rw [hf2'] at hle
      simp at hle
      omega

theorem full_rel_freeze (j : Nat) (c c2 : Context) (hr : FullRel c c2)
    (hf : (c.people j).queued_for_testing = true) (h0 : c.hc.testing_queue.count j = 0) :
    (c2.people j).queued_for_testing = true ∧ c2.hc.testing_queue.count j = 0 := by
  obtain ⟨⟨_, _, hqmono⟩, hq⟩ := hr
  have hf2 := hqmono j hf
  have hle := (hq j).1
  rw [hf, hf2, h0] at hle
  simp at hle
  exact ⟨hf2, by omega⟩

theorem iterate_qinv (j : Nat) (c c2 : Context) (h : Context.iterate c = some c2) :
    QInv j c2 := by
  unfold Context.iterate at h
  rcases Option.bind_eq_some.mp h with ⟨c1, hivs, h2⟩
  rcases Option.bind_eq_some.mp h2 with ⟨c3, hhc, h3⟩
  rcases Option.map_eq_some'.mp h3 with ⟨c4, hpl, heq⟩
  unfold HealthcareSystem.iterate at hhc
  dsimp only at hhc
  have r2 := run_list_rel FullRel full_rel_refl
    (fun {a b c} ha hb => full_rel_trans ha hb) hc_test_one full_rel_hc_test_one
    _ _ _ hhc
  have hq3 : QInv j c3 := by
    refine full_rel_qinv j _ c3 r2 ⟨fun _ => ?_, ?_⟩ <;> simp
  have r3 := run_list_rel FullRel full_rel_refl
    (fun {a b c} ha hb => full_rel_trans ha hb) person_step full_rel_person_step
    _ _ _ hpl
  have hq4 := full_rel_qinv j c3 c4 r3 hq3
  rw [← heq]
  exact hq4

theorem iterate_flag_freeze (j : Nat) (c c2 : Context) (h : Context.iterate c = some c2)
    (hf : (c.people j).queued_for_testing = true) :
    (c2.people j).queued_for_testing = true ∧ c2.hc.testing_queue.count j = 0 := by
  unfold Context.iterate at h
  rcases Option.bind_eq_some.mp h with ⟨c1, hivs, h2⟩
  rcases Option.bind_eq_some.mp h2 with ⟨c3, hhc, h3⟩
  rcases Option.map_eq_some'.mp h3 with ⟨c4, hpl, heq⟩
  have r1 := full_rel_iv_phase c.interventions c c1 hivs
  have hf1 : (c1.people j).queued_for_testing = true := r1.1.2.2 j hf
  unfold HealthcareSystem.iterate at hhc
  dsimp only at hhc
  have r2 := run_list_rel FullRel full_rel_refl
    (fun {a b c} ha hb => full_rel_trans ha hb) hc_test_one full_rel_hc_test_one
    _ _ _ hhc
  have hfz3 := full_rel_freeze j _ c3 r2 hf1 (by simp)
  have r3 := run_list_rel FullRel full_rel_refl
    (fun {a b c} ha hb => full_rel_trans ha hb) person_step full_rel_person_step
    _ _ _ hpl
  have hfz4 := full_rel_freeze j c3 c4 r3 hfz3.1 hfz3.2
  rw [← heq]
  exact hfz4

theorem queued_count_nil (j : Nat) : queued_count j [] = 0 := rfl

theorem queued_count_cons (j : Nat) (q : List Nat) (qs : List (List Nat)) :
    queued_count j (q :: qs) = q.count j + queued_count j qs := by
  simp [queued_count]

theorem processed_queues_succ_some (n : Nat) (c c2 : Context)
    (h : Context.iterate c = some c2) :
    processed_queues (n + 1) c = c.hc.testing_queue :: processed_queues n c2 := by
  conv_lhs => unfold processed_queues
  rw [h]

theorem processed_queues_succ_none (n : Nat) (c : Context) (h : Context.iterate c = none) :
    processed_queues (n + 1) c = [c.hc.testing_queue] := by
  conv_lhs => unfold processed_queues
  rw [h]

theorem processed_count_zero (j : Nat) :
    ∀ (n : Nat) (c : Context), (c.people j).queued_for_testing = true →
      c.hc.testing_queue.count j = 0 →
      queued_count j (processed_queues n c) = 0 := by
  intro n
  induction n with
  | zero =>
    intro c _ _
    rfl
  | succ k ih =>
    intro c hf h0
    cases hit : Context.iterate c with
    | none =>
      rw [processed_queues_succ_none k c hit, queued_count_cons, queued_count_nil, h0]
    | some c2 =>
      have hfz := iterate_flag_freeze j c c2 hit hf
      rw [processed_queues_succ_some k c c2 hit, queued_count_cons, h0,
        ih c2 hfz.1 hfz.2]

theorem processed_count_le_one (j : Nat) :
    ∀ (n : Nat) (c : Context), QInv j c →
      queued_count j (processed_queues n c) ≤ 1 := by
  intro n
  induction n with
  | zero =>
    intro c _
    exact Nat.zero_le 1
  | succ k ih =>
    intro c hinv
    cases hit : Context.iterate c with
    | none =>
      rw [processed_queues_succ_none k c hit, queued_count_cons, queued_count_nil]
      have := hinv.2
      omega
    | some c2 =>
      rw [processed_queues_succ_some k c c2 hit, queued_count_cons]
      by_cases hcc : c.hc.testing_queue.count j = 0
      · rw [hcc]
        have := ih c2 (iterate_qinv j c c2 hit)
        omega
      · have hflag : (c.people j).queued_for_testing = true := by
          cases hqv : (c.people j).queued_for_testing
          · exact absurd (hinv.1 hqv) hcc
          · rfl
        have hfz := iterate_flag_freeze j c c2 hit hflag
        rw [processed_count_zero j k c2 hfz.1 hfz.2]
        have := hinv.2
        omega

theorem make_context_qinv (inp : SimInputs) (j : Nat) : QInv j (make_context inp) := by
  constructor
  · intro _
    rfl
  · show List.count j [] ≤ 1
    simp

theorem import_loop_queue :
    ∀ (n : Nat) (c c2 : Context), import_infections_loop n c = some c2 →
      c2.hc.testing_queue = c.hc.testing_queue := by
  intro n
  induction n with
  | zero =>
    intro c c2 h
    simp only [import_infections_loop, Option.some.injEq] at h
    rw [← h]
  | succ k ih =>
    intro c c2 h
    unfold import_infections_loop at h
    dsimp only at h
    split_ifs at h with hr
    rw [ih _ _ h, infect_hc]

theorem apply_intervention_queue (c : Context) (iv : Intervention) (c2 : Context)
    (h : Context.apply_intervention c iv = some c2) :
    c2.hc.testing_queue = c.hc.testing_queue := by
  unfold Context.apply_intervention at h
  split_ifs at h with h1 h2 h3 h4 h5 h6 h7 h8 <;>
    first
      | exact import_loop_queue _ _ _ h
      | (rw [← Option.some.inj h]; rfl)
      | rw [← Option.some.inj h]

theorem iv_phase_queue :
    ∀ (ivs : List Intervention) (c c2 : Context),
      run_list (fun iv cc => if iv.day = cc.day then Context.apply_intervention cc iv
        else some cc) ivs c = some c2 → c2.hc.testing_queue = c.hc.testing_queue := by
  intro ivs
  induction ivs with
  | nil =>
    intro c c2 h
    simp only [run_list, Option.some.injEq] at h
    rw [← h]
  | cons iv rest ih =>
    intro c c2 h
    simp only [run_list] at h
    rcases Option.bind_eq_some.mp h with ⟨cm, hcm, hrest⟩
    have h2 := ih cm c2 hrest
    rw [h2]
    split_ifs at hcm with hday
    · exact apply_intervention_queue _ _ _ hcm
    · rw [← Option.some.inj hcm]

/-- C10: (i) a `queue_for_testing` call for a person whose
`queued_for_testing` flag is already set returns False and changes nothing;
(ii) after `HealthcareSystem.iterate` processes the testing queue, every
processed person's flag remains set; (iii) the flag is never cleared across
a whole simulated day; hence (iv) over a whole simulation from
`make_context`, every person appears at most once in all processed testing
queues — each person is tested at most once per simulation. -/
theorem tested_at_most_once :
    (∀ (c : Context) (j : Nat), (c.people j).queued_for_testing = true →
      HealthcareSystem.queue_for_testing c j = (false, c)) ∧
    (∀ (c c2 : Context), HealthcareSystem.iterate c = some c2 →
      ∀ j ∈ c.hc.testing_queue, (c2.people j).queued_for_testing = true) ∧
    (∀ (c c2 : Context) (j : Nat), Context.iterate c = some c2 →
      (c.people j).queued_for_testing = true →
      (c2.people j).queued_for_testing = true) ∧
    (∀ (inp : SimInputs) (j n : Nat),
      queued_count j (processed_queues n (make_context inp)) ≤ 1) :=
  ⟨qft_flagged, hc_iterate_flags,
   fun c c2 j h hf => (step_rel_iterate c c2 h).2.2 j hf,
   fun inp j n => processed_count_le_one j n (make_context inp) (make_context_qinv inp j)⟩
